import Mathlib

/-!
Shallow embedding of the `when` audio feature-extraction engine
(`src/audio/feature_extractor.{h,cpp}`) over exact rational arithmetic.
Transcendental library calls (`std::sqrt`, `std::log`, `std::exp`,
`std::log2`, `std::log10`, `std::pow(10, ·)`) are taken as an abstract
parameter bundle `RealOps`; every theorem is quantified over it.
-/

set_option autoImplicit false

namespace when

/-- Abstract versions of the transcendental functions the source calls. -/
structure RealOps where
  sqrt : ℚ → ℚ
  log : ℚ → ℚ
  exp : ℚ → ℚ
  log2 : ℚ → ℚ
  log10 : ℚ → ℚ
  pow10 : ℚ → ℚ

/-- A trivial instantiation of the abstract math operations, used to
evaluate the model on concrete inputs. -/
def trivOps : RealOps :=
  ⟨fun q => q, fun q => q, fun q => q, fun q => q, fun q => q, fun q => q⟩

/-- `FeatureExtractor::BandRange`: fraction-of-band-count range. -/
structure BandRange where
  startR : ℚ
  endR : ℚ
deriving DecidableEq

/-- `FeatureExtractor::Config` (feature_extractor.h lines 21-48). -/
structure Config where
  bass_range : BandRange
  mid_range : BandRange
  treble_range : BandRange
  beat_detection_threshold : ℚ
  silence_threshold : ℚ
  smoothing_attack : ℚ
  smoothing_release : ℚ
  band_flux_smoothing : ℚ
  band_onset_sensitivity : ℚ
  bass_onset_sensitivity : ℚ
  mid_onset_sensitivity : ℚ
  treble_onset_sensitivity : ℚ
  band_onset_min_flux : ℚ
  global_onset_threshold : ℚ
  tempo_history_seconds : ℚ
  tempo_smoothing : ℚ
  tempo_min_bpm : ℚ
  tempo_max_bpm : ℚ
  tempo_confidence_threshold : ℚ
  beat_phase_realign : ℚ
  beats_per_bar : ℕ
  apply_a_weighting : Bool
  enable_spectral_flatness : Bool
  enable_chroma : Bool
  chroma_min_frequency : ℚ
  chroma_max_frequency : ℚ
deriving DecidableEq

/-- The default values of `FeatureExtractor::Config` from the header. -/
def defaultConfig : Config where
  bass_range := ⟨0, 0.2⟩
  mid_range := ⟨0.2, 0.7⟩
  treble_range := ⟨0.7, 1⟩
  beat_detection_threshold := 0.35
  silence_threshold := 1e-5
  smoothing_attack := 0.35
  smoothing_release := 0.08
  band_flux_smoothing := 0.08
  band_onset_sensitivity := 1.5
  bass_onset_sensitivity := 2
  mid_onset_sensitivity := 2
  treble_onset_sensitivity := 2
  band_onset_min_flux := 1e-4
  global_onset_threshold := 1e-3
  tempo_history_seconds := 4
  tempo_smoothing := 0.12
  tempo_min_bpm := 60
  tempo_max_bpm := 180
  tempo_confidence_threshold := 1e-4
  beat_phase_realign := 0.25
  beats_per_bar := 4
  apply_a_weighting := true
  enable_spectral_flatness := true
  enable_chroma := true
  chroma_min_frequency := 32.703
  chroma_max_frequency := 4186.01

/-- `FeatureInputFrame` (feature_input_frame.h); spans become lists.
`frame_period` is read by `FeatureExtractor::process` (cpp line 318). -/
structure FeatureInputFrame where
  fft_magnitudes : List ℚ
  fft_phases : List ℚ
  instantaneous_band_energies : List ℚ
  smoothed_band_energies : List ℚ
  band_flux : List ℚ
  band_bin_ranges : List (ℕ × ℕ)
  sample_rate : ℚ
  frame_period : ℚ
  beat_strength : ℚ
deriving DecidableEq

/-- `AudioFeatures`, with every field `FeatureExtractor::process` writes. -/
structure AudioFeatures where
  bass_energy : ℚ
  mid_energy : ℚ
  treble_energy : ℚ
  total_energy : ℚ
  bass_envelope : ℚ
  mid_envelope : ℚ
  treble_envelope : ℚ
  bass_energy_instantaneous : ℚ
  mid_energy_instantaneous : ℚ
  treble_energy_instantaneous : ℚ
  total_energy_instantaneous : ℚ
  beat_detected : Bool
  beat_strength : ℚ
  spectral_centroid : ℚ
  spectral_flatness : ℚ
  chroma : List ℚ
  chroma_available : Bool
  bass_beat : Bool
  mid_beat : Bool
  treble_beat : Bool
  bpm : ℚ
  beat_phase : ℚ
  bar_phase : ℚ
  downbeat : Bool
  band_flux : List ℚ
deriving DecidableEq

/-- A default-constructed `AudioFeatures{}` value. -/
def emptyFeatures : AudioFeatures where
  bass_energy := 0
  mid_energy := 0
  treble_energy := 0
  total_energy := 0
  bass_envelope := 0
  mid_envelope := 0
  treble_envelope := 0
  bass_energy_instantaneous := 0
  mid_energy_instantaneous := 0
  treble_energy_instantaneous := 0
  total_energy_instantaneous := 0
  beat_detected := false
  beat_strength := 0
  spectral_centroid := 0
  spectral_flatness := 0
  chroma := List.replicate 12 0
  chroma_available := false
  bass_beat := false
  mid_beat := false
  treble_beat := false
  bpm := 0
  beat_phase := 0
  bar_phase := 0
  downbeat := false
  band_flux := []

/-- `FeatureExtractor::TempoTrackerState`. -/
structure TempoTrackerState where
  bpm : ℚ
  beat_phase : ℚ
  bar_phase : ℚ
  confidence : ℚ
deriving DecidableEq

/-- The mutable members of `FeatureExtractor` (feature_extractor.h 92-112). -/
structure ExtractorState where
  band_count : ℕ
  weighting_curve : List ℚ
  weighted_bins : List ℚ
  weighted_band_buffer : List ℚ
  band_envelopes : List ℚ
  onset_history : List ℚ
  onset_history_linear : List ℚ
  band_flux_baseline : List ℚ
  chroma_bin_map : List ℕ
  onset_history_write_pos : ℕ
  tempo_state : TempoTrackerState
  bass_envelope : ℚ
  mid_envelope : ℚ
  treble_envelope : ℚ
  total_envelope : ℚ
  weighting_sample_rate : ℚ
  weighting_fft_size : ℕ
  chroma_sample_rate : ℚ
  chroma_fft_size : ℕ
  beat_counter_in_bar : ℕ
deriving DecidableEq

/-- `std::clamp` on rationals. -/
def clampQ (v lo hi : ℚ) : ℚ :=
  if v < lo then lo else if hi < v then hi else v

/-- `std::lround`: round half away from zero. -/
def lroundQ (q : ℚ) : ℤ :=
  if q < 0 then -⌊-q + 1/2⌋ else ⌊q + 1/2⌋

/-- `FeatureExtractor::resize_onset_history` (cpp 420-435). -/
def resize_onset_history (s : ExtractorState) (desired0 : ℕ) : ExtractorState :=
  let d1 := if desired0 = 0 then 32 else desired0
  let d := if d1 < 32 then 32 else if 2048 < d1 then 2048 else d1
  if s.onset_history.length = d then
    if s.onset_history_linear.length ≠ d then
      { s with onset_history_linear := List.replicate d 0 }
    else s
  else
    { s with onset_history := List.replicate d 0,
             onset_history_linear := List.replicate d 0,
             onset_history_write_pos := 0 }

/-- `FeatureExtractor::reset` (cpp 21-56); note `weighting_curve_` is
not cleared, only its cache key is. -/
def reset (s0 : ExtractorState) : ExtractorState :=
  let s1 : ExtractorState :=
    { s0 with band_envelopes := List.replicate s0.band_envelopes.length 0,
              weighted_band_buffer := List.replicate s0.weighted_band_buffer.length 0,
              weighted_bins := List.replicate s0.weighted_bins.length 0,
              band_flux_baseline := List.replicate s0.band_flux_baseline.length 0 }
  let s2 :=
    if s1.onset_history.isEmpty then resize_onset_history s1 512
    else { s1 with onset_history := List.replicate s1.onset_history.length 0,
                   onset_history_linear := List.replicate s1.onset_history.length 0 }
  { s2 with onset_history_write_pos := 0,
            tempo_state := ⟨0, 0, 0, 0⟩,
            beat_counter_in_bar := 0,
            bass_envelope := 0, mid_envelope := 0, treble_envelope := 0,
            total_envelope := 0,
            weighting_sample_rate := 0, weighting_fft_size := 0,
            chroma_sample_rate := 0, chroma_fft_size := 0,
            chroma_bin_map := [] }

/-- `FeatureExtractor::ensure_band_capacity` (cpp 324-329). -/
def ensure_band_capacity (s : ExtractorState) (band_count : ℕ) : ExtractorState :=
  { s with band_count := band_count,
           band_envelopes := List.replicate band_count 0,
           weighted_band_buffer := List.replicate band_count 0,
           band_flux_baseline := List.replicate band_count 0 }

/-- `FeatureExtractor::prepare` (cpp 16-19). -/
def prepare (s : ExtractorState) (band_count : ℕ) : ExtractorState :=
  reset (ensure_band_capacity s band_count)

/-- The state of a freshly constructed `FeatureExtractor` (the
constructor runs `reset()` on empty members). -/
def initState : ExtractorState :=
  reset
    { band_count := 0, weighting_curve := [], weighted_bins := [],
      weighted_band_buffer := [], band_envelopes := [], onset_history := [],
      onset_history_linear := [], band_flux_baseline := [], chroma_bin_map := [],
      onset_history_write_pos := 0, tempo_state := ⟨0, 0, 0, 0⟩,
      bass_envelope := 0, mid_envelope := 0, treble_envelope := 0,
      total_envelope := 0, weighting_sample_rate := 0, weighting_fft_size := 0,
      chroma_sample_rate := 0, chroma_fft_size := 0, beat_counter_in_bar := 0 }

/-- `FeatureExtractor::resolve_band_indices` (cpp 599-617). -/
def resolve_band_indices (band_count : ℕ) (range : BandRange) : ℕ × ℕ :=
  if band_count = 0 then (0, 0)
  else
    let clamped_start := clampQ range.startR 0 1
    let clamped_end := clampQ range.endR clamped_start 1
    let start0 : ℕ := (⌊clamped_start * (band_count : ℚ)⌋).toNat
    let end0 : ℕ := (⌈clamped_end * (band_count : ℚ)⌉).toNat
    let start1 := if band_count ≤ start0 then band_count - 1 else start0
    let end1 := min (max end0 (start1 + 1)) band_count
    (start1, end1)

/-- `FeatureExtractor::compute_average_energy` (cpp 619-637). -/
def compute_average_energy (bands : List ℚ) (start e0 : ℕ) : ℚ :=
  if bands.isEmpty ∨ bands.length ≤ start then 0
  else
    let e := min e0 bands.length
    if e ≤ start then 0
    else
      let sum := ((List.range (e - start)).map (fun j => max (bands.getD (start + j) 0) 0)).sum
      sum / ((e - start : ℕ) : ℚ)

/-- `FeatureExtractor::compute_spectral_centroid` (cpp 639-662). -/
def compute_spectral_centroid (bands : List ℚ) (total_energy_sum : ℚ) : ℚ :=
  if bands.isEmpty ∨ total_energy_sum ≤ 0 then 0
  else
    let n : ℚ := (bands.length : ℚ)
    let weighted_sum := ((List.range bands.length).map (fun (i : ℕ) =>
        let energy := max (bands.getD i 0) 0
        if energy ≤ 0 then 0 else energy * (((i : ℚ) + 0.5) / n))).sum
    if weighted_sum ≤ 0 then 0
    else clampQ (weighted_sum / total_energy_sum) 0 1

/-- `FeatureExtractor::compute_a_weighting_coefficient` (cpp 664-688). -/
def compute_a_weighting_coefficient (ops : RealOps) (frequency_hz : ℚ) : ℚ :=
  if frequency_hz ≤ 0 then 0
  else
    let f2 := frequency_hz * frequency_hz
    let numerator := 12200 * 12200 * f2 * f2
    let term1 := f2 + 20.6 * 20.6
    let term2 := ops.sqrt ((f2 + 107.7 * 107.7) * (f2 + 737.9 * 737.9))
    let term3 := f2 + 12200 * 12200
    let denominator := term1 * term2 * term3
    if denominator ≤ 0 then 0
    else
      let ra := numerator / denominator
      if ra ≤ 0 then 0
      else
        let a_db := 2 + 20 * ops.log10 ra
        clampQ (ops.pow10 (a_db / 20)) 0 10

/-- The weighting curve `update_weighting_curve` computes for a key
`(fft_bin_count, sample_rate, fft_size)` when it does recompute. -/
def freshWeightingCurve (ops : RealOps) (fft_bin_count : ℕ) (sample_rate : ℚ)
    (fft_size : ℕ) : List ℚ :=
  if fft_bin_count = 0 ∨ sample_rate ≤ 0 ∨ fft_size = 0 then
    List.replicate fft_bin_count 1
  else
    let bin_width := if (0 : ℚ) < (fft_size : ℚ) then sample_rate / (fft_size : ℚ) else 0
    (List.range fft_bin_count).map (fun (bin : ℕ) =>
      compute_a_weighting_coefficient ops (bin_width * (bin : ℚ)))

/-- `FeatureExtractor::update_weighting_curve` (cpp 331-358). -/
def update_weighting_curve (ops : RealOps) (s : ExtractorState)
    (fft_bin_count : ℕ) (sample_rate : ℚ) (fft_size : ℕ) : ExtractorState :=
  if fft_bin_count = 0 ∨ sample_rate ≤ 0 ∨ fft_size = 0 then
    { s with weighting_curve := List.replicate fft_bin_count 1,
             weighting_sample_rate := sample_rate,
             weighting_fft_size := fft_size }
  else if s.weighting_curve.length = fft_bin_count ∧
          s.weighting_sample_rate = sample_rate ∧
          s.weighting_fft_size = fft_size then s
  else
    let bin_width := if (0 : ℚ) < (fft_size : ℚ) then sample_rate / (fft_size : ℚ) else 0
    { s with weighting_curve := (List.range fft_bin_count).map (fun (bin : ℕ) =>
               compute_a_weighting_coefficient ops (bin_width * (bin : ℚ))),
             weighting_sample_rate := sample_rate,
             weighting_fft_size := fft_size }

/-- `FeatureExtractor::update_chroma_mapping` (cpp 360-411). Entry 255
stands for 0xFF, the "unmapped" marker. -/
def update_chroma_mapping (ops : RealOps) (cfg : Config) (s : ExtractorState)
    (fft_bin_count : ℕ) (sample_rate : ℚ) (fft_size : ℕ) : ExtractorState :=
  if fft_bin_count = 0 ∨ sample_rate ≤ 0 ∨ fft_size = 0 then
    { s with chroma_bin_map := List.replicate fft_bin_count 255,
             chroma_sample_rate := sample_rate,
             chroma_fft_size := fft_size }
  else if s.chroma_bin_map.length = fft_bin_count ∧
          s.chroma_sample_rate = sample_rate ∧
          s.chroma_fft_size = fft_size then s
  else
    let base := { s with chroma_bin_map := List.replicate fft_bin_count 255,
                         chroma_sample_rate := sample_rate,
                         chroma_fft_size := fft_size }
    let bin_width := if (0 : ℚ) < (fft_size : ℚ) then sample_rate / (fft_size : ℚ) else 0
    if bin_width ≤ 0 then base
    else
      let min_frequency := max (min cfg.chroma_min_frequency cfg.chroma_max_frequency) 0
      let max_frequency := max (max cfg.chroma_min_frequency cfg.chroma_max_frequency) 0
      if max_frequency ≤ min_frequency then base
      else
        { base with chroma_bin_map := (List.range fft_bin_count).map (fun (bin : ℕ) =>
            let frequency := bin_width * (bin : ℚ)
            if frequency < min_frequency ∨ max_frequency < frequency then 255
            else if frequency ≤ 0 then 255
            else
              let midi_note := 69 + 12 * ops.log2 (frequency / 440)
              let rounded_note := lroundQ midi_note
              let pc := rounded_note.tmod 12
              (if pc < 0 then pc + 12 else pc).toNat) }

/-- `FeatureExtractor::apply_envelope` (cpp 413-418); returns the new
envelope state (which the source also returns). -/
def apply_envelope (cfg : Config) (target0 state : ℚ) : ℚ :=
  let target := max target0 0
  let alpha := if state < target then cfg.smoothing_attack else cfg.smoothing_release
  state + (target - state) * alpha

/-- The `for (int i = 0; i < wraps; ++i)` loop of cpp 566-571: advance
the in-bar beat counter by `wraps` increments, flagging a downbeat when
the counter wraps to zero. Returns (final counter, downbeat flag). -/
def advanceBeatCounter (counter wraps bpb : ℕ) : ℕ × Bool :=
  match wraps with
  | 0 => (counter, false)
  | w + 1 =>
    let c1 := (counter + 1) % bpb
    let rest := advanceBeatCounter c1 w bpb
    (rest.1, rest.2 || decide (c1 = 0))

/-- The per-frame tempo outputs `update_tempo_tracking` writes into the
feature bundle (cpp 592-595). -/
structure TempoOut where
  bpm : ℚ
  beat_phase : ℚ
  bar_phase : ℚ
  downbeat : Bool
deriving DecidableEq

/-- Onset-history sizing, cpp 456-470: resize the circular buffer to
cover the tempo window at the current frame period. -/
def tempoResize (cfg : Config) (s : ExtractorState) (frame_period : ℚ) : ExtractorState :=
  let window_seconds := max cfg.tempo_history_seconds frame_period
  let fn0 := window_seconds / frame_period
  let fn1 := if fn0 < 32 then (32 : ℚ) else fn0
  let fn2 := if 2048 < fn1 then (2048 : ℚ) else fn1
  let desired_length := max 32 fn2.floor.toNat
  if s.onset_history = [] ∨ s.onset_history.length ≠ desired_length then
    resize_onset_history s desired_length
  else s

/-- Cpp 480-490: write the onset strength at the write cursor, advance
the cursor, and rebuild the time-linearized copy. -/
def tempoWrite (s : ExtractorState) (onset_strength : ℚ) : ExtractorState :=
  let n := s.onset_history.length
  let hist := s.onset_history.set s.onset_history_write_pos (max onset_strength 0)
  let pos := (s.onset_history_write_pos + 1) % n
  { s with onset_history := hist,
           onset_history_write_pos := pos,
           onset_history_linear := (List.range n).map (fun i => hist.getD ((pos + i) % n) 0) }

/-- One lag's mean-subtracted autocorrelation score (cpp 519-528). -/
def lagScore (lin : List ℚ) (mean : ℚ) (lag : ℕ) : ℚ :=
  let hsize := lin.length
  let raw := ((List.range (hsize - lag)).map (fun j =>
      (lin.getD (lag + j) 0 - mean) * (lin.getD j 0 - mean))).sum
  if 0 < hsize - lag then raw / ((hsize - lag : ℕ) : ℚ) else raw

/-- The lag loop of cpp 518-536, carrying (tempo candidate, best score). -/
def scanLags (lin : List ℚ) (mean : ℚ) (min_lag max_lag : ℕ) (frame_period : ℚ) : ℚ × ℚ :=
  ((List.range (max_lag + 1 - min_lag)).map (fun (i : ℕ) => i + min_lag)).foldl
    (fun (acc : ℚ × ℚ) (lag : ℕ) =>
      let score := lagScore lin mean lag
      if acc.2 < score then
        ((if 0 < lag then 60 / ((lag : ℚ) * frame_period) else 0), score)
      else acc)
    (0, 0)

/-- Autocorrelation tempo candidate search, cpp 492-539. -/
def tempoScan (cfg : Config) (s : ExtractorState) (frame_period : ℚ) : ℚ × ℚ :=
  let hsize := s.onset_history.length
  if 8 ≤ hsize then
    let min_bpm := min cfg.tempo_min_bpm cfg.tempo_max_bpm
    let max_bpm := max cfg.tempo_min_bpm cfg.tempo_max_bpm
    if 0 < max_bpm ∧ 0 < frame_period then
      let min_period0 := 60 / max_bpm
      let max_period0 := 60 / max min_bpm 1
      let min_period := if max_period0 < min_period0 then max_period0 else min_period0
      let max_period := if max_period0 < min_period0 then min_period0 else max_period0
      let min_lag := max 1 (min_period / frame_period).floor.toNat
      let max_lag0 := max min_lag (max_period / frame_period).ceil.toNat
      let max_lag := if hsize ≤ max_lag0 then hsize - 1 else max_lag0
      if min_lag < max_lag ∧ 1 < hsize then
        let mean := s.onset_history_linear.sum / (hsize : ℚ)
        scanLags s.onset_history_linear mean min_lag max_lag frame_period
      else (0, 0)
    else (0, 0)
  else (0, 0)

/-- Tempo smoothing / confidence decay, cpp 541-557. -/
def tempoSmooth (cfg : Config) (ts : TempoTrackerState) (tempo_candidate best_score : ℚ) :
    TempoTrackerState :=
  if 0 < tempo_candidate ∧ cfg.tempo_confidence_threshold < best_score then
    let smoothing := clampQ cfg.tempo_smoothing 0 1
    let bpm := if ts.bpm ≤ 0 then tempo_candidate
               else ts.bpm + (tempo_candidate - ts.bpm) * smoothing
    { ts with bpm := bpm, confidence := best_score }
  else
    let conf := ts.confidence * 0.95
    if conf < cfg.tempo_confidence_threshold * 0.5 then
      let bpm0 := ts.bpm * 0.98
      let bpm := if bpm0 < 1e-3 then 0 else bpm0
      { ts with bpm := bpm, confidence := conf }
    else { ts with confidence := conf }

/-- Beat-phase / bar-phase advance, cpp 559-590. Returns the new tempo
state, the new in-bar counter and the downbeat flag. -/
def advancePhase (cfg : Config) (ts : TempoTrackerState) (counter : ℕ)
    (frame_period : ℚ) (beat_observed : Bool) : TempoTrackerState × ℕ × Bool :=
  let bpb := max 1 cfg.beats_per_bar
  if 0 < ts.bpm then
    let beats_advanced := ts.bpm / 60 * frame_period
    let pa0 := ts.beat_phase + beats_advanced
    let w : (ℚ × ℕ × Bool) :=
      if 1 ≤ pa0 then
        let wraps := pa0.floor.toNat
        let r := advanceBeatCounter counter wraps bpb
        (pa0 - (pa0.floor : ℚ), r.1, r.2)
      else (pa0, counter, false)
    let phase1 := clampQ w.1 0 1
    let phase2 :=
      if beat_observed then
        let realign := clampQ cfg.beat_phase_realign 0 1
        clampQ (phase1 - phase1 * realign) 0 1
      else phase1
    let bar := clampQ (((w.2.1 : ℚ) + phase2) / max (bpb : ℚ) 1) 0 1
    ({ ts with beat_phase := phase2, bar_phase := bar }, w.2.1, w.2.2)
  else
    ({ ts with beat_phase := 0, bar_phase := 0 }, 0, false)

/-- `FeatureExtractor::update_tempo_tracking` (cpp 437-597), returning
the new engine state and the tempo fields of the feature bundle. -/
def update_tempo_tracking (cfg : Config) (s : ExtractorState)
    (onset_strength frame_period : ℚ) (beat_observed : Bool) :
    ExtractorState × TempoOut :=
  let bpb := max 1 cfg.beats_per_bar
  if frame_period ≤ 0 then
    let bar := clampQ (((s.beat_counter_in_bar : ℚ) + s.tempo_state.beat_phase) / (bpb : ℚ)) 0 1
    let ts := { s.tempo_state with bar_phase := bar }
    ({ s with tempo_state := ts }, ⟨ts.bpm, ts.beat_phase, bar, false⟩)
  else
    let s1 := tempoResize cfg s frame_period
    if s1.onset_history = [] then
      (s1, ⟨s1.tempo_state.bpm, s1.tempo_state.beat_phase, s1.tempo_state.bar_phase, false⟩)
    else
      let s2 := tempoWrite s1 onset_strength
      let sc := tempoScan cfg s2 frame_period
      let ts0 := tempoSmooth cfg s2.tempo_state sc.1 sc.2
      let a := advancePhase cfg ts0 s2.beat_counter_in_bar frame_period beat_observed
      let s3 := { s2 with tempo_state := a.1, beat_counter_in_bar := a.2.1 }
      (s3, ⟨a.1.bpm, a.1.beat_phase, a.1.bar_phase, a.2.2⟩)

/-- Result of the energy-source resolution block, cpp 69-136. -/
structure ResolveOut where
  s : ExtractorState
  bands : List ℚ
  can_w : Bool
deriving DecidableEq

/-- Cpp 69-136: pick the band-energy source (weighted FFT bins when
magnitudes, bin ranges and a positive sample rate are all present,
otherwise instantaneous then smoothed band energies), preparing the
engine on a band-count change and updating the weighting curve. -/
def resolveStage (ops : RealOps) (s0 : ExtractorState) (frame : FeatureInputFrame) :
    ResolveOut :=
  let fft_bins := frame.fft_magnitudes
  let band_ranges := frame.band_bin_ranges
  let can_w := !fft_bins.isEmpty && !band_ranges.isEmpty && decide (0 < frame.sample_rate)
  if can_w then
    let band_count := band_ranges.length
    let sA := if s0.band_count ≠ band_count then prepare s0 band_count else s0
    let fft_bin_count := fft_bins.length
    let fft_size := if 0 < fft_bin_count then (fft_bin_count - 1) * 2 else 0
    let sB := update_weighting_curve ops sA fft_bin_count frame.sample_rate fft_size
    let wb := (List.range fft_bin_count).map (fun i =>
        fft_bins.getD i 0 *
          (if i < sB.weighting_curve.length then sB.weighting_curve.getD i 0 else 1))
    let resolved_count := min sB.band_count band_ranges.length
    let wbb := (List.range sB.band_count).map (fun band =>
        if band < resolved_count then
          let r := band_ranges.getD band (0, 0)
          let start := min r.1 fft_bin_count
          let e := min r.2 fft_bin_count
          if e ≤ start then 0
          else
            let sum_sq := ((List.range (e - start)).map (fun j =>
                let magnitude := wb.getD (start + j) 0
                magnitude * magnitude)).sum
            let average := sum_sq / ((e - start : ℕ) : ℚ)
            ops.sqrt (max average 0)
        else 0)
    ⟨{ sB with weighted_bins := wb, weighted_band_buffer := wbb }, wbb, true⟩
  else
    let bands := if frame.instantaneous_band_energies.isEmpty then
        frame.smoothed_band_energies
      else frame.instantaneous_band_energies
    let sA := if s0.band_count ≠ bands.length then prepare s0 bands.length else s0
    ⟨sA, bands, false⟩

/-- The band count `process` ends up analyzing for a given input frame
(equal to `band_count_` after the resolution block). -/
def resolvedBandCount (frame : FeatureInputFrame) : ℕ :=
  if !frame.fft_magnitudes.isEmpty && !frame.band_bin_ranges.isEmpty &&
      decide (0 < frame.sample_rate) then
    frame.band_bin_ranges.length
  else if frame.instantaneous_band_energies.isEmpty then
    frame.smoothed_band_energies.length
  else frame.instantaneous_band_energies.length

/-- One iteration of the bin loop of cpp 237-251: accumulate one bin's
squared weighted magnitude into its pitch class and the running total. -/
def chromaStep (bin_map : List ℕ) (wb : List ℚ) (st : List ℚ × ℚ) (bin : ℕ) :
    List ℚ × ℚ :=
  let pc := bin_map.getD bin 255
  if 12 ≤ pc then st
  else
    let magnitude := wb.getD bin 0
    if magnitude ≤ 0 then st
    else (st.1.set pc (st.1.getD pc 0 + magnitude * magnitude),
          st.2 + magnitude * magnitude)

/-- The bin loop of cpp 237-251: accumulate squared weighted magnitudes
into the 12 pitch classes and a running total. -/
def chromaAccumulate (bin_map : List ℕ) (wb : List ℚ) (usable_bins : ℕ) :
    List ℚ × ℚ :=
  (List.range usable_bins).foldl (chromaStep bin_map wb) (List.replicate 12 0, 0)

/-- Result of the chroma block, cpp 229-267. -/
structure ChromaOut where
  s : ExtractorState
  chroma : List ℚ
  available : Bool
deriving DecidableEq

/-- Cpp 229-267: update the chroma mapping and aggregate the normalized
chroma vector from the weighted bins. -/
def chromaStage (ops : RealOps) (cfg : Config) (can_w : Bool) (s : ExtractorState)
    (sample_rate : ℚ) : ChromaOut :=
  if cfg.enable_chroma && can_w && !s.weighted_bins.isEmpty then
    let n := s.weighted_bins.length
    let s1 := update_chroma_mapping ops cfg s n sample_rate (if 0 < n then (n - 1) * 2 else 0)
    let usable_bins := min s1.weighted_bins.length s1.chroma_bin_map.length
    let acc := chromaAccumulate s1.chroma_bin_map s1.weighted_bins usable_bins
    if (1e-12 : ℚ) < acc.2 then
      ⟨s1, acc.1.map (fun v => v * (1 / acc.2)), true⟩
    else ⟨s1, List.replicate 12 0, false⟩
  else ⟨s, List.replicate 12 0, false⟩

/-- Spectral flatness, cpp 194-227. -/
def spectralFlatness (ops : RealOps) (cfg : Config) (can_w : Bool)
    (wb fft_bins : List ℚ) : ℚ :=
  if cfg.enable_spectral_flatness then
    let flatness_bins := if can_w && !wb.isEmpty then wb
      else if !fft_bins.isEmpty then fft_bins else []
    if flatness_bins.isEmpty then 0
    else
      let log_sum := (flatness_bins.map (fun m => ops.log (max m (1e-12 : ℚ)))).sum
      let linear_sum := (flatness_bins.map (fun m => max m (1e-12 : ℚ))).sum
      let count := flatness_bins.length
      if 0 < count ∧ (1e-12 : ℚ) < linear_sum then
        let geometric_mean := ops.exp (log_sum / (count : ℚ))
        let arithmetic_mean := linear_sum / (count : ℚ)
        let ratio := if (1e-12 : ℚ) < arithmetic_mean then geometric_mean / arithmetic_mean else 0
        clampQ ratio 0 1
      else 0
  else 0

/-- The `detect_band` lambda of cpp 292-301. -/
def detect_band (cfg : Config) (flux baseline : List ℚ) (idx : ℕ × ℕ) : Bool :=
  if idx.2 ≤ idx.1 then false
  else
    let band_value := compute_average_energy flux idx.1 idx.2
    let band_baseline := compute_average_energy baseline idx.1 idx.2
    let threshold := max cfg.band_onset_min_flux (band_baseline * cfg.band_onset_sensitivity)
    decide (threshold < band_value)

/-- Result of the onset block, cpp 269-312. -/
structure OnsetOut where
  baseline : List ℚ
  strength : ℚ
  aggregated : Bool
  bass : Bool
  mid : Bool
  treble : Bool
deriving DecidableEq

/-- Cpp 269-312: adaptive per-band flux baselines, per-band beat flags
and the aggregate onset strength fed to the tempo tracker. -/
def onsetStage (cfg : Config) (band_count : ℕ) (baseline0 flux : List ℚ)
    (bassIdx midIdx trebleIdx : ℕ × ℕ) : OnsetOut :=
  if !flux.isEmpty && flux.length == band_count then
    let base := if baseline0.length ≠ band_count then List.replicate band_count 0 else baseline0
    let flux_alpha := clampQ cfg.band_flux_smoothing 0 1
    let baseline1 := (List.range band_count).map (fun i =>
        let flux_value := max (flux.getD i 0) 0
        let b := base.getD i 0
        b + (flux_value - b) * flux_alpha)
    let aggregated_excess := ((List.range band_count).map (fun i =>
        let flux_value := max (flux.getD i 0) 0
        max 0 (flux_value - baseline1.getD i 0))).sum
    let strength := if 0 < band_count then aggregated_excess / (band_count : ℚ) else 0
    ⟨baseline1, strength, decide (cfg.global_onset_threshold < strength),
     detect_band cfg flux baseline1 bassIdx,
     detect_band cfg flux baseline1 midIdx,
     detect_band cfg flux baseline1 trebleIdx⟩
  else ⟨baseline0, 0, false, false, false, false⟩

/-- `FeatureExtractor::process` (cpp 63-322), returning the feature
bundle and the new engine state. -/
def process (ops : RealOps) (cfg : Config) (s0 : ExtractorState)
    (frame : FeatureInputFrame) : AudioFeatures × ExtractorState :=
  let beat_detected0 := decide (cfg.beat_detection_threshold ≤ frame.beat_strength)
  let r := resolveStage ops s0 frame
  let bands := r.bands
  let band_count := bands.length
  if band_count = 0 then
    ({ emptyFeatures with band_flux := frame.band_flux,
                          beat_strength := frame.beat_strength,
                          beat_detected := beat_detected0 }, r.s)
  else
    let total_sum := (bands.map (fun b => max b 0)).sum
    let env2 := (List.range band_count).map (fun i =>
        let target := max (bands.getD i 0) 0
        let envelope := r.s.band_envelopes.getD i 0
        envelope + (target - envelope) *
          (if envelope < target then cfg.smoothing_attack else cfg.smoothing_release))
    let bassIdx := resolve_band_indices band_count cfg.bass_range
    let midIdx := resolve_band_indices band_count cfg.mid_range
    let trebleIdx := resolve_band_indices band_count cfg.treble_range
    let bass_instant := compute_average_energy bands bassIdx.1 bassIdx.2
    let mid_instant := compute_average_energy bands midIdx.1 midIdx.2
    let treble_instant := compute_average_energy bands trebleIdx.1 trebleIdx.2
    let bass_env := apply_envelope cfg bass_instant r.s.bass_envelope
    let mid_env := apply_envelope cfg mid_instant r.s.mid_envelope
    let treble_env := apply_envelope cfg treble_instant r.s.treble_envelope
    let total_instant := total_sum / (band_count : ℚ)
    let total_env := apply_envelope cfg total_instant r.s.total_envelope
    let s2 := { r.s with band_envelopes := env2,
                         bass_envelope := bass_env, mid_envelope := mid_env,
                         treble_envelope := treble_env, total_envelope := total_env }
    let smoothed_total_sum := (env2.map (fun v => max v 0)).sum
    let centroid := if (cfg.silence_threshold : ℚ) < smoothed_total_sum then
        compute_spectral_centroid env2 smoothed_total_sum
      else 0
    let flatness := spectralFlatness ops cfg r.can_w s2.weighted_bins frame.fft_magnitudes
    let c := chromaStage ops cfg r.can_w s2 frame.sample_rate
    let o := onsetStage cfg c.s.band_count c.s.band_flux_baseline frame.band_flux
        bassIdx midIdx trebleIdx
    let s4 := { c.s with band_flux_baseline := o.baseline }
    let beat_detected := beat_detected0 || o.aggregated || o.bass || o.mid || o.treble
    let t := update_tempo_tracking cfg s4 o.strength frame.frame_period beat_detected
    ({ bass_energy := bass_env, mid_energy := mid_env, treble_energy := treble_env,
       total_energy := total_env,
       bass_envelope := bass_env, mid_envelope := mid_env, treble_envelope := treble_env,
       bass_energy_instantaneous := bass_instant,
       mid_energy_instantaneous := mid_instant,
       treble_energy_instantaneous := treble_instant,
       total_energy_instantaneous := total_instant,
       beat_detected := beat_detected, beat_strength := frame.beat_strength,
       spectral_centroid := centroid, spectral_flatness := flatness,
       chroma := c.chroma, chroma_available := c.available,
       bass_beat := o.bass, mid_beat := o.mid, treble_beat := o.treble,
       bpm := t.2.bpm, beat_phase := t.2.beat_phase, bar_phase := t.2.bar_phase,
       downbeat := t.2.downbeat,
       band_flux := frame.band_flux }, t.1)

/-- Driving the engine over a sequence of frames, one `process` call per
frame; returns the per-frame feature bundles and the final state. -/
def processRun (ops : RealOps) (cfg : Config) :
    ExtractorState → List FeatureInputFrame → List AudioFeatures × ExtractorState
  | s, [] => ([], s)
  | s, frame :: frames =>
    let r := process ops cfg s frame
    let rest := processRun ops cfg r.2 frames
    (r.1 :: rest.1, rest.2)

/-! ### General lemmas about the helper functions -/

theorem clampQ_lower {v lo hi : ℚ} (h : lo ≤ hi) : lo ≤ clampQ v lo hi := by
  unfold clampQ
  split_ifs with h1 h2
  · exact le_refl lo
  · exact h
  · linarith

theorem clampQ_upper {v lo hi : ℚ} (h : lo ≤ hi) : clampQ v lo hi ≤ hi := by
  unfold clampQ
  split_ifs with h1 h2
  · exact h
  · exact le_refl hi
  · linarith

theorem clampQ_eq_self {v lo hi : ℚ} (h1 : lo ≤ v) (h2 : v ≤ hi) : clampQ v lo hi = v := by
  unfold clampQ
  split_ifs with g1 g2
  · linarith
  · linarith
  · rfl

theorem getD_nonneg {l : List ℚ} (h : ∀ x ∈ l, 0 ≤ x) (i : ℕ) : 0 ≤ l.getD i 0 := by
  by_cases hi : i < l.length
  · rw [List.getD_eq_getElem l 0 hi]
    exact h _ (List.getElem_mem hi)
  · rw [List.getD_eq_default l 0 (le_of_not_lt hi)]

theorem compute_average_energy_nonneg (bands : List ℚ) (start e0 : ℕ) :
    0 ≤ compute_average_energy bands start e0 := by
  unfold compute_average_energy
  dsimp only
  split_ifs with h1 h2
  · exact le_refl 0
  · exact le_refl 0
  · apply div_nonneg
    · apply List.sum_nonneg
      intro x hx
      obtain ⟨j, _, rfl⟩ := List.mem_map.1 hx
      exact le_max_right _ 0
    · exact_mod_cast Nat.zero_le _

theorem compute_spectral_centroid_mem_unit (bands : List ℚ) (t : ℚ) :
    0 ≤ compute_spectral_centroid bands t ∧ compute_spectral_centroid bands t ≤ 1 := by
  unfold compute_spectral_centroid
  dsimp only
  split_ifs with h1 h2
  · exact ⟨le_refl 0, by norm_num⟩
  · exact ⟨le_refl 0, by norm_num⟩
  · exact ⟨clampQ_lower (by norm_num), clampQ_upper (by norm_num)⟩

theorem apply_envelope_nonneg (cfg : Config) (t s : ℚ)
    (hs : 0 ≤ s) (ha0 : 0 ≤ cfg.smoothing_attack) (ha1 : cfg.smoothing_attack ≤ 1)
    (hr0 : 0 ≤ cfg.smoothing_release) (hr1 : cfg.smoothing_release ≤ 1) :
    0 ≤ apply_envelope cfg t s := by
  unfold apply_envelope
  dsimp only
  have htar : (0 : ℚ) ≤ max t 0 := le_max_right t 0
  split_ifs with h1
  · nlinarith
  · nlinarith

theorem spectralFlatness_mem_unit (ops : RealOps) (cfg : Config) (can_w : Bool)
    (wb fft : List ℚ) :
    0 ≤ spectralFlatness ops cfg can_w wb fft ∧ spectralFlatness ops cfg can_w wb fft ≤ 1 := by
  unfold spectralFlatness
  dsimp only
  split_ifs <;>
    first
      | exact ⟨clampQ_lower (by norm_num), clampQ_upper (by norm_num)⟩
      | exact ⟨le_refl 0, by norm_num⟩

/-! ### Claim theorems -/

set_option maxHeartbeats 2000000 in
/-- Claim C1 (supporting theorem): `process` never reads
`Config::apply_a_weighting`; two extractors whose configs differ only in
that toggle produce identical feature bundles and identical successor
states on every input, so the toggle cannot suppress the perceptual
weighting. -/
theorem c1_apply_a_weighting_ignored (ops : RealOps) (cfg : Config) (w₁ w₂ : Bool)
    (s : ExtractorState) (frame : FeatureInputFrame) :
    process ops { cfg with apply_a_weighting := w₁ } s frame =
      process ops { cfg with apply_a_weighting := w₂ } s frame := by
  rfl

set_option maxHeartbeats 2000000 in
/-- Claim C10: the per-band onset sensitivity fields
`bass_onset_sensitivity`, `mid_onset_sensitivity` and
`treble_onset_sensitivity` are never read by the engine: configs that
differ only in those three fields produce identical feature bundles on
every call and over every input sequence (every band threshold uses the
shared `band_onset_sensitivity`). -/
theorem c10_per_band_sensitivity_unused (ops : RealOps) (cfg : Config)
    (a₁ b₁ c₁ a₂ b₂ c₂ : ℚ) :
    (∀ (s : ExtractorState) (frame : FeatureInputFrame),
      process ops { cfg with bass_onset_sensitivity := a₁, mid_onset_sensitivity := b₁,
                             treble_onset_sensitivity := c₁ } s frame =
      process ops { cfg with bass_onset_sensitivity := a₂, mid_onset_sensitivity := b₂,
                             treble_onset_sensitivity := c₂ } s frame) ∧
    (∀ (s : ExtractorState) (frames : List FeatureInputFrame),
      processRun ops { cfg with bass_onset_sensitivity := a₁, mid_onset_sensitivity := b₁,
                                treble_onset_sensitivity := c₁ } s frames =
      processRun ops { cfg with bass_onset_sensitivity := a₂, mid_onset_sensitivity := b₂,
                                treble_onset_sensitivity := c₂ } s frames) := by
  have step : ∀ (s : ExtractorState) (frame : FeatureInputFrame),
      process ops { cfg with bass_onset_sensitivity := a₁, mid_onset_sensitivity := b₁,
                             treble_onset_sensitivity := c₁ } s frame =
      process ops { cfg with bass_onset_sensitivity := a₂, mid_onset_sensitivity := b₂,
                             treble_onset_sensitivity := c₂ } s frame := fun _ _ => rfl
  refine ⟨step, ?_⟩
  intro s frames
  induction frames generalizing s with
  | nil => rfl
  | cons f fs ih => simp only [processRun, step, ih]

/-- Cache coherence for the perceptual weighting curve: the stored curve
is exactly what a fresh recomputation for the stored key would produce. -/
def weightingCoherent (ops : RealOps) (s : ExtractorState) : Prop :=
  s.weighting_curve =
    freshWeightingCurve ops s.weighting_curve.length s.weighting_sample_rate s.weighting_fft_size

theorem freshWeightingCurve_length (ops : RealOps) (bins : ℕ) (sr : ℚ) (fft : ℕ) :
    (freshWeightingCurve ops bins sr fft).length = bins := by
  unfold freshWeightingCurve
  split
  · exact List.length_replicate bins 1
  · dsimp only
    rw [List.length_map, List.length_range]

theorem update_weighting_curve_keys (ops : RealOps) (s : ExtractorState) (bins : ℕ)
    (sr : ℚ) (fft : ℕ) :
    (update_weighting_curve ops s bins sr fft).weighting_sample_rate = sr ∧
    (update_weighting_curve ops s bins sr fft).weighting_fft_size = fft := by
  unfold update_weighting_curve
  by_cases hd : bins = 0 ∨ sr ≤ 0 ∨ fft = 0
  · rw [if_pos hd]
    exact ⟨rfl, rfl⟩
  · by_cases hm : s.weighting_curve.length = bins ∧ s.weighting_sample_rate = sr ∧
        s.weighting_fft_size = fft
    · rw [if_neg hd, if_pos hm]
      exact ⟨hm.2.1, hm.2.2⟩
    · rw [if_neg hd, if_neg hm]
      exact ⟨rfl, rfl⟩

theorem update_weighting_curve_fresh (ops : RealOps) (s : ExtractorState) (bins : ℕ)
    (sr : ℚ) (fft : ℕ) (h : weightingCoherent ops s) :
    (update_weighting_curve ops s bins sr fft).weighting_curve =
      freshWeightingCurve ops bins sr fft := by
  unfold update_weighting_curve freshWeightingCurve
  by_cases hd : bins = 0 ∨ sr ≤ 0 ∨ fft = 0
  · rw [if_pos hd, if_pos hd]
  · by_cases hm : s.weighting_curve.length = bins ∧ s.weighting_sample_rate = sr ∧
        s.weighting_fft_size = fft
    · rw [if_neg hd, if_pos hm, if_neg hd]
      obtain ⟨e1, e2, e3⟩ := hm
      rw [h]
      unfold freshWeightingCurve
      rw [if_neg (by rw [e1, e2, e3]; exact hd), e1, e2, e3]
    · rw [if_neg hd, if_neg hm, if_neg hd]

/-- Claim C8: `update_weighting_curve` is a pure memoization.  From a
coherent cache (established at construction and preserved by every
call), calling with the cached key leaves the state untouched, the
stored curve always equals a fresh recomputation for the requested key,
and a degenerate key (zero bins, non-positive sample rate or zero FFT
size) yields all-one coefficients. -/
theorem c8_weighting_memoization (ops : RealOps) :
    weightingCoherent ops initState ∧
    (∀ (s : ExtractorState) (bins : ℕ) (sr : ℚ) (fft : ℕ), weightingCoherent ops s →
      weightingCoherent ops (update_weighting_curve ops s bins sr fft)) ∧
    (∀ s : ExtractorState, weightingCoherent ops s →
      update_weighting_curve ops s s.weighting_curve.length s.weighting_sample_rate
        s.weighting_fft_size = s) ∧
    (∀ (s : ExtractorState) (bins : ℕ) (sr : ℚ) (fft : ℕ), weightingCoherent ops s →
      (update_weighting_curve ops s bins sr fft).weighting_curve =
        freshWeightingCurve ops bins sr fft) ∧
    (∀ (s : ExtractorState) (bins : ℕ) (sr : ℚ) (fft : ℕ),
      (bins = 0 ∨ sr ≤ 0 ∨ fft = 0) →
      ∀ c ∈ (update_weighting_curve ops s bins sr fft).weighting_curve, c = 1) := by
  refine ⟨rfl, ?_, ?_, update_weighting_curve_fresh ops, ?_⟩
  · intro s bins sr fft h
    unfold weightingCoherent
    rw [update_weighting_curve_fresh ops s bins sr fft h,
        (update_weighting_curve_keys ops s bins sr fft).1,
        (update_weighting_curve_keys ops s bins sr fft).2,
        freshWeightingCurve_length]
  · intro s h
    unfold update_weighting_curve
    by_cases hd : s.weighting_curve.length = 0 ∨ s.weighting_sample_rate ≤ 0 ∨
        s.weighting_fft_size = 0
    · rw [if_pos hd]
      have hrep : List.replicate s.weighting_curve.length (1 : ℚ) = s.weighting_curve := by
        conv_rhs => rw [h]
        unfold freshWeightingCurve
        rw [if_pos hd]
      rw [hrep]
    · rw [if_neg hd, if_pos ⟨rfl, rfl, rfl⟩]
  · intro s bins sr fft hdeg c hc
    unfold update_weighting_curve at hc
    rw [if_pos hdeg] at hc
    dsimp only at hc
    rw [List.mem_replicate] at hc
    exact hc.2

/-- Witness for C8: the fresh extractor's cache is coherent; calling
with its cached key is the identity; a degenerate key gives all-one
coefficients. -/
theorem c8_weighting_memoization_witness :
    weightingCoherent trivOps initState ∧
    update_weighting_curve trivOps initState initState.weighting_curve.length
      initState.weighting_sample_rate initState.weighting_fft_size = initState ∧
    ((3 : ℕ) = 0 ∨ (0 : ℚ) ≤ 0 ∨ (7 : ℕ) = 0) ∧
    (∀ c ∈ (update_weighting_curve trivOps initState 3 0 7).weighting_curve, c = 1) :=
  ⟨rfl, (c8_weighting_memoization trivOps).2.2.1 initState rfl,
   by decide,
   (c8_weighting_memoization trivOps).2.2.2.2 initState 3 0 7 (by decide)⟩

theorem apply_envelope_zero_state (cfg : Config) (t : ℚ) (ht : 0 ≤ t) :
    apply_envelope cfg t 0 = t * cfg.smoothing_attack := by
  unfold apply_envelope
  dsimp only
  rw [max_eq_left ht]
  split_ifs with hc
  · ring
  · have h0 : t = 0 := le_antisymm (not_lt.mp hc) ht
    rw [h0]
    ring

/-- Claim C9: with empty FFT magnitudes, empty instantaneous band
energies and eight non-negative pre-smoothed band energies, a fresh
extractor falls back to the smoothed bands (the model is total, so no
exception can occur) and reports `total_energy` equal to their mean
after one smoothing step with `smoothing_attack` from a zero envelope. -/
theorem c9_smoothed_fallback (ops : RealOps) (cfg : Config) (frame : FeatureInputFrame)
    (vals : List ℚ)
    (hfft : frame.fft_magnitudes = [])
    (hinst : frame.instantaneous_band_energies = [])
    (hsm : frame.smoothed_band_energies = vals)
    (hlen : vals.length = 8)
    (hpos : ∀ v ∈ vals, 0 ≤ v) :
    (process ops cfg initState frame).1.total_energy =
      vals.sum / 8 * cfg.smoothing_attack := by
  have hr : resolveStage ops initState frame = ⟨prepare initState 8, vals, false⟩ := by
    unfold resolveStage
    rw [hfft, hinst, hsm]
    simp only [List.isEmpty_nil, Bool.not_true, Bool.false_and, if_neg, Bool.false_eq_true,
      not_false_iff, if_true]
    rw [hlen]
    rw [if_pos (show initState.band_count ≠ 8 by decide)]
  have hmap : vals.map (fun b => max b 0) = vals := by
    conv_rhs => rw [← List.map_id vals]
    exact List.map_congr_left (fun a ha => max_eq_left (hpos a ha))
  have henv : (prepare initState 8).total_envelope = 0 := rfl
  simp only [process, hr, hlen, hmap]
  norm_num
  rw [henv, apply_envelope_zero_state]
  apply div_nonneg
  · exact List.sum_nonneg hpos
  · norm_num

/-- The concrete frame of the C9 scenario. -/
def c9Frame : FeatureInputFrame :=
  ⟨[], [], [], [1, 1, 1, 1, 1, 1, 1, 1], [], [], 48000, 4, 0⟩

/-- Witness for C9 at eight unit band energies. -/
theorem c9_smoothed_fallback_witness :
    (c9Frame.fft_magnitudes = [] ∧ c9Frame.instantaneous_band_energies = [] ∧
      c9Frame.smoothed_band_energies = [1, 1, 1, 1, 1, 1, 1, 1] ∧
      ([1, 1, 1, 1, 1, 1, 1, 1] : List ℚ).length = 8 ∧
      ∀ v ∈ ([1, 1, 1, 1, 1, 1, 1, 1] : List ℚ), 0 ≤ v) ∧
    (process trivOps defaultConfig initState c9Frame).1.total_energy =
      ([1, 1, 1, 1, 1, 1, 1, 1] : List ℚ).sum / 8 * defaultConfig.smoothing_attack :=
  ⟨⟨rfl, rfl, rfl, rfl, by decide⟩,
   c9_smoothed_fallback trivOps defaultConfig c9Frame [1, 1, 1, 1, 1, 1, 1, 1]
     rfl rfl rfl rfl (by decide)⟩

/-! ### Field-preservation lemmas -/

theorem uwc_band_count (ops : RealOps) (s : ExtractorState) (bins : ℕ) (sr : ℚ) (fft : ℕ) :
    (update_weighting_curve ops s bins sr fft).band_count = s.band_count := by
  unfold update_weighting_curve
  split_ifs <;> rfl

theorem uwc_onset_history (ops : RealOps) (s : ExtractorState) (bins : ℕ) (sr : ℚ) (fft : ℕ) :
    (update_weighting_curve ops s bins sr fft).onset_history = s.onset_history := by
  unfold update_weighting_curve
  split_ifs <;> rfl

theorem uwc_write_pos (ops : RealOps) (s : ExtractorState) (bins : ℕ) (sr : ℚ) (fft : ℕ) :
    (update_weighting_curve ops s bins sr fft).onset_history_write_pos =
      s.onset_history_write_pos := by
  unfold update_weighting_curve
  split_ifs <;> rfl

theorem uwc_tempo_state (ops : RealOps) (s : ExtractorState) (bins : ℕ) (sr : ℚ) (fft : ℕ) :
    (update_weighting_curve ops s bins sr fft).tempo_state = s.tempo_state := by
  unfold update_weighting_curve
  split_ifs <;> rfl

theorem uwc_band_envelopes (ops : RealOps) (s : ExtractorState) (bins : ℕ) (sr : ℚ) (fft : ℕ) :
    (update_weighting_curve ops s bins sr fft).band_envelopes = s.band_envelopes := by
  unfold update_weighting_curve
  split_ifs <;> rfl

theorem uwc_scalar_envelopes (ops : RealOps) (s : ExtractorState) (bins : ℕ) (sr : ℚ) (fft : ℕ) :
    (update_weighting_curve ops s bins sr fft).bass_envelope = s.bass_envelope ∧
    (update_weighting_curve ops s bins sr fft).mid_envelope = s.mid_envelope ∧
    (update_weighting_curve ops s bins sr fft).treble_envelope = s.treble_envelope ∧
    (update_weighting_curve ops s bins sr fft).total_envelope = s.total_envelope := by
  unfold update_weighting_curve
  split_ifs <;> exact ⟨rfl, rfl, rfl, rfl⟩

theorem uwc_band_flux_baseline (ops : RealOps) (s : ExtractorState) (bins : ℕ) (sr : ℚ)
    (fft : ℕ) :
    (update_weighting_curve ops s bins sr fft).band_flux_baseline = s.band_flux_baseline := by
  unfold update_weighting_curve
  split_ifs <;> rfl

theorem uwc_beat_counter (ops : RealOps) (s : ExtractorState) (bins : ℕ) (sr : ℚ) (fft : ℕ) :
    (update_weighting_curve ops s bins sr fft).beat_counter_in_bar = s.beat_counter_in_bar := by
  unfold update_weighting_curve
  split_ifs <;> rfl

theorem ucm_band_count (ops : RealOps) (cfg : Config) (s : ExtractorState) (bins : ℕ)
    (sr : ℚ) (fft : ℕ) :
    (update_chroma_mapping ops cfg s bins sr fft).band_count = s.band_count := by
  unfold update_chroma_mapping
  dsimp only
  split_ifs <;> rfl

theorem ucm_band_flux_baseline (ops : RealOps) (cfg : Config) (s : ExtractorState) (bins : ℕ)
    (sr : ℚ) (fft : ℕ) :
    (update_chroma_mapping ops cfg s bins sr fft).band_flux_baseline =
      s.band_flux_baseline := by
  unfold update_chroma_mapping
  dsimp only
  split_ifs <;> rfl

theorem ucm_onset_history (ops : RealOps) (cfg : Config) (s : ExtractorState) (bins : ℕ)
    (sr : ℚ) (fft : ℕ) :
    (update_chroma_mapping ops cfg s bins sr fft).onset_history = s.onset_history := by
  unfold update_chroma_mapping
  dsimp only
  split_ifs <;> rfl

theorem ucm_write_pos (ops : RealOps) (cfg : Config) (s : ExtractorState) (bins : ℕ)
    (sr : ℚ) (fft : ℕ) :
    (update_chroma_mapping ops cfg s bins sr fft).onset_history_write_pos =
      s.onset_history_write_pos := by
  unfold update_chroma_mapping
  dsimp only
  split_ifs <;> rfl

theorem ucm_tempo_state (ops : RealOps) (cfg : Config) (s : ExtractorState) (bins : ℕ)
    (sr : ℚ) (fft : ℕ) :
    (update_chroma_mapping ops cfg s bins sr fft).tempo_state = s.tempo_state := by
  unfold update_chroma_mapping
  dsimp only
  split_ifs <;> rfl

theorem ucm_beat_counter (ops : RealOps) (cfg : Config) (s : ExtractorState) (bins : ℕ)
    (sr : ℚ) (fft : ℕ) :
    (update_chroma_mapping ops cfg s bins sr fft).beat_counter_in_bar =
      s.beat_counter_in_bar := by
  unfold update_chroma_mapping
  dsimp only
  split_ifs <;> rfl

theorem chromaStage_band_count (ops : RealOps) (cfg : Config) (w : Bool)
    (s : ExtractorState) (sr : ℚ) :
    (chromaStage ops cfg w s sr).s.band_count = s.band_count := by
  unfold chromaStage
  dsimp only
  split_ifs <;> first | rfl | exact ucm_band_count ops cfg s _ sr _

theorem chromaStage_band_flux_baseline (ops : RealOps) (cfg : Config) (w : Bool)
    (s : ExtractorState) (sr : ℚ) :
    (chromaStage ops cfg w s sr).s.band_flux_baseline = s.band_flux_baseline := by
  unfold chromaStage
  dsimp only
  split_ifs <;> first | rfl | exact ucm_band_flux_baseline ops cfg s _ sr _

theorem chromaStage_onset_history (ops : RealOps) (cfg : Config) (w : Bool)
    (s : ExtractorState) (sr : ℚ) :
    (chromaStage ops cfg w s sr).s.onset_history = s.onset_history := by
  unfold chromaStage
  dsimp only
  split_ifs <;> first | rfl | exact ucm_onset_history ops cfg s _ sr _

theorem chromaStage_write_pos (ops : RealOps) (cfg : Config) (w : Bool)
    (s : ExtractorState) (sr : ℚ) :
    (chromaStage ops cfg w s sr).s.onset_history_write_pos = s.onset_history_write_pos := by
  unfold chromaStage
  dsimp only
  split_ifs <;> first | rfl | exact ucm_write_pos ops cfg s _ sr _

theorem chromaStage_tempo_state (ops : RealOps) (cfg : Config) (w : Bool)
    (s : ExtractorState) (sr : ℚ) :
    (chromaStage ops cfg w s sr).s.tempo_state = s.tempo_state := by
  unfold chromaStage
  dsimp only
  split_ifs <;> first | rfl | exact ucm_tempo_state ops cfg s _ sr _

theorem chromaStage_beat_counter (ops : RealOps) (cfg : Config) (w : Bool)
    (s : ExtractorState) (sr : ℚ) :
    (chromaStage ops cfg w s sr).s.beat_counter_in_bar = s.beat_counter_in_bar := by
  unfold chromaStage
  dsimp only
  split_ifs <;> first | rfl | exact ucm_beat_counter ops cfg s _ sr _

theorem resize_onset_history_band_count (s : ExtractorState) (d : ℕ) :
    (resize_onset_history s d).band_count = s.band_count := by
  unfold resize_onset_history
  dsimp only
  split_ifs <;> rfl

theorem reset_band_count (s : ExtractorState) : (reset s).band_count = s.band_count := by
  unfold reset
  dsimp only
  split_ifs
  · rw [resize_onset_history_band_count]
  · rfl

theorem prepare_band_count (s : ExtractorState) (n : ℕ) : (prepare s n).band_count = n := by
  unfold prepare ensure_band_capacity
  rw [reset_band_count]

theorem resolveStage_s_band_count (ops : RealOps) (s0 : ExtractorState)
    (frame : FeatureInputFrame) :
    (resolveStage ops s0 frame).s.band_count = resolvedBandCount frame := by
  unfold resolveStage resolvedBandCount
  by_cases hw : (!frame.fft_magnitudes.isEmpty && !frame.band_bin_ranges.isEmpty &&
      decide (0 < frame.sample_rate)) = true
  · rw [if_pos hw, if_pos hw]
    dsimp only
    rw [uwc_band_count]
    split_ifs with hp
    · rw [prepare_band_count]
    · exact not_ne_iff.mp hp
  · rw [if_neg hw, if_neg hw]
    dsimp only
    split_ifs with hp hq hr
    · rw [prepare_band_count]
    · exact not_ne_iff.mp hq
    · rw [prepare_band_count]
    · exact not_ne_iff.mp hr

theorem resolveStage_bands_length (ops : RealOps) (s0 : ExtractorState)
    (frame : FeatureInputFrame) :
    (resolveStage ops s0 frame).bands.length = resolvedBandCount frame := by
  unfold resolveStage resolvedBandCount
  by_cases hw : (!frame.fft_magnitudes.isEmpty && !frame.band_bin_ranges.isEmpty &&
      decide (0 < frame.sample_rate)) = true
  · rw [if_pos hw, if_pos hw]
    dsimp only
    rw [List.length_map, List.length_range, uwc_band_count]
    split_ifs with hp
    · rw [prepare_band_count]
    · exact not_ne_iff.mp hp
  · rw [if_neg hw, if_neg hw]
    dsimp only
    split_ifs <;> rfl

theorem onsetStage_invalid (cfg : Config) (bc : ℕ) (baseline flux : List ℚ)
    (p q r : ℕ × ℕ) (h : flux = [] ∨ flux.length ≠ bc) :
    onsetStage cfg bc baseline flux p q r = ⟨baseline, 0, false, false, false, false⟩ := by
  unfold onsetStage
  have hcond : (!flux.isEmpty && flux.length == bc) = false := by
    rcases h with h | h
    · rw [h]
      rfl
    · simp [h]
  rw [hcond]
  simp only [Bool.false_eq_true, if_false]

/-- Claim C5: when the input flux span is empty or its length differs
from the resolved band count, all three per-band beat flags are false
and the aggregate onset strength fed to the tempo tracker is zero (the
onset stage also leaves its baseline untouched). -/
theorem c5_flux_shape_mismatch (ops : RealOps) (cfg : Config) (s : ExtractorState)
    (frame : FeatureInputFrame)
    (h : frame.band_flux = [] ∨ frame.band_flux.length ≠ resolvedBandCount frame) :
    (process ops cfg s frame).1.bass_beat = false ∧
    (process ops cfg s frame).1.mid_beat = false ∧
    (process ops cfg s frame).1.treble_beat = false ∧
    (∀ (baseline : List ℚ) (p q r : ℕ × ℕ),
      (onsetStage cfg (resolvedBandCount frame) baseline frame.band_flux p q r).strength = 0 ∧
      (onsetStage cfg (resolvedBandCount frame) baseline frame.band_flux p q r).baseline =
        baseline) := by
  have hstage : ∀ (baseline : List ℚ) (p q r : ℕ × ℕ),
      onsetStage cfg (resolvedBandCount frame) baseline frame.band_flux p q r =
        ⟨baseline, 0, false, false, false, false⟩ :=
    fun baseline p q r => onsetStage_invalid cfg _ baseline _ p q r h
  refine ⟨?_, ?_, ?_, fun baseline p q r => by rw [hstage]; exact ⟨rfl, rfl⟩⟩
  all_goals
    simp only [process]
    by_cases hz : (resolveStage ops s frame).bands.length = 0
    · rw [if_pos hz]
      rfl
    · rw [if_neg hz]
      rw [chromaStage_band_count, chromaStage_band_flux_baseline]
      dsimp only
      rw [resolveStage_s_band_count, hstage]

/-- The concrete frame of the C5 witness: two instantaneous bands,
empty flux span. -/
def c5Frame : FeatureInputFrame :=
  ⟨[], [], [2, 3], [], [], [], 0, 4, 1⟩

/-- Witness for C5: empty flux with two resolved bands. -/
theorem c5_flux_shape_mismatch_witness :
    (c5Frame.band_flux = [] ∨ c5Frame.band_flux.length ≠ resolvedBandCount c5Frame) ∧
    (process trivOps defaultConfig initState c5Frame).1.bass_beat = false ∧
    (process trivOps defaultConfig initState c5Frame).1.treble_beat = false ∧
    (onsetStage defaultConfig (resolvedBandCount c5Frame) [0, 0] c5Frame.band_flux
      (0, 1) (0, 2) (1, 2)).strength = 0 :=
  ⟨Or.inl rfl,
   (c5_flux_shape_mismatch trivOps defaultConfig initState c5Frame (Or.inl rfl)).1,
   (c5_flux_shape_mismatch trivOps defaultConfig initState c5Frame (Or.inl rfl)).2.2.1,
   ((c5_flux_shape_mismatch trivOps defaultConfig initState c5Frame (Or.inl rfl)).2.2.2
     [0, 0] (0, 1) (0, 2) (1, 2)).1⟩

/-- Claim C6: for a nonzero resolved band count, `beat_detected` is the
logical OR of the caller-supplied beat strength crossing the configured
threshold, the aggregated onset flag, and the three per-band beat
flags. -/
theorem c6_beat_detected_or (ops : RealOps) (cfg : Config) (s : ExtractorState)
    (frame : FeatureInputFrame) (h : resolvedBandCount frame ≠ 0) :
    (process ops cfg s frame).1.beat_detected =
      (decide (cfg.beat_detection_threshold ≤ frame.beat_strength) ||
       (onsetStage cfg (resolvedBandCount frame)
          (resolveStage ops s frame).s.band_flux_baseline frame.band_flux
          (resolve_band_indices (resolvedBandCount frame) cfg.bass_range)
          (resolve_band_indices (resolvedBandCount frame) cfg.mid_range)
          (resolve_band_indices (resolvedBandCount frame) cfg.treble_range)).aggregated ||
       (process ops cfg s frame).1.bass_beat ||
       (process ops cfg s frame).1.mid_beat ||
       (process ops cfg s frame).1.treble_beat) := by
  simp only [process]
  rw [if_neg (by rw [resolveStage_bands_length]; exact h)]
  rw [chromaStage_band_count, chromaStage_band_flux_baseline]
  dsimp only
  rw [resolveStage_s_band_count, resolveStage_bands_length]

/-- The concrete frame of the C6 witness: two instantaneous bands with
a matching flux span. -/
def c6Frame : FeatureInputFrame :=
  ⟨[], [], [2, 3], [], [5, 0], [], 0, 4, 1⟩

/-- Witness for C6 at a two-band frame with one strong flux band. -/
theorem c6_beat_detected_or_witness :
    resolvedBandCount c6Frame ≠ 0 ∧
    (process trivOps defaultConfig initState c6Frame).1.beat_detected =
      (decide (defaultConfig.beat_detection_threshold ≤ c6Frame.beat_strength) ||
       (onsetStage defaultConfig (resolvedBandCount c6Frame)
          (resolveStage trivOps initState c6Frame).s.band_flux_baseline c6Frame.band_flux
          (resolve_band_indices (resolvedBandCount c6Frame) defaultConfig.bass_range)
          (resolve_band_indices (resolvedBandCount c6Frame) defaultConfig.mid_range)
          (resolve_band_indices (resolvedBandCount c6Frame) defaultConfig.treble_range)).aggregated ||
       (process trivOps defaultConfig initState c6Frame).1.bass_beat ||
       (process trivOps defaultConfig initState c6Frame).1.mid_beat ||
       (process trivOps defaultConfig initState c6Frame).1.treble_beat) :=
  ⟨by decide, c6_beat_detected_or trivOps defaultConfig initState c6Frame (by decide)⟩

theorem sum_set_getD (l : List ℚ) (i : ℕ) (d : ℚ) (h : i < l.length) :
    (l.set i (l.getD i 0 + d)).sum = l.sum + d := by
  induction l generalizing i with
  | nil => exact absurd h (by simp)
  | cons a t ih =>
    cases i with
    | zero =>
      rw [List.getD_cons_zero, List.set_cons_zero, List.sum_cons, List.sum_cons]
      ring
    | succ n =>
      have hn : n < t.length := by simpa using h
      rw [List.getD_cons_succ, List.set_cons_succ, List.sum_cons, List.sum_cons, ih n hn]
      ring

theorem sum_map_mul_const (l : List ℚ) (c : ℚ) :
    (l.map (fun v => v * c)).sum = l.sum * c := by
  induction l with
  | nil => simp
  | cons a t ih =>
    rw [List.map_cons, List.sum_cons, List.sum_cons, ih]
    ring

theorem chromaStep_inv (bin_map : List ℕ) (wb : List ℚ) (st : List ℚ × ℚ) (bin : ℕ)
    (h1 : st.1.sum = st.2) (h2 : st.1.length = 12) :
    (chromaStep bin_map wb st bin).1.sum = (chromaStep bin_map wb st bin).2 ∧
    (chromaStep bin_map wb st bin).1.length = 12 := by
  unfold chromaStep
  dsimp only
  split_ifs with hp hm
  · exact ⟨h1, h2⟩
  · exact ⟨h1, h2⟩
  · refine ⟨?_, ?_⟩
    · dsimp only
      rw [sum_set_getD _ _ _ (by rw [h2]; exact lt_of_not_le hp), h1]
    · dsimp only
      rw [List.length_set]
      exact h2

theorem foldl_chromaStep_inv (bin_map : List ℕ) (wb : List ℚ) (l : List ℕ)
    (st : List ℚ × ℚ) (h1 : st.1.sum = st.2) (h2 : st.1.length = 12) :
    (l.foldl (chromaStep bin_map wb) st).1.sum = (l.foldl (chromaStep bin_map wb) st).2 ∧
    (l.foldl (chromaStep bin_map wb) st).1.length = 12 := by
  induction l generalizing st with
  | nil => exact ⟨h1, h2⟩
  | cons b t ih =>
    rw [List.foldl_cons]
    exact ih _ (chromaStep_inv bin_map wb st b h1 h2).1 (chromaStep_inv bin_map wb st b h1 h2).2

theorem chromaAccumulate_inv (bin_map : List ℕ) (wb : List ℚ) (usable_bins : ℕ) :
    (chromaAccumulate bin_map wb usable_bins).1.sum =
      (chromaAccumulate bin_map wb usable_bins).2 ∧
    (chromaAccumulate bin_map wb usable_bins).1.length = 12 := by
  unfold chromaAccumulate
  exact foldl_chromaStep_inv bin_map wb _ _ (by simp) (by simp)

theorem chroma_branch_spec (s1 : ExtractorState) (M : List ℕ) (W : List ℚ) (U : ℕ) :
    ((if (1e-12 : ℚ) < (chromaAccumulate M W U).2 then
        (⟨s1, (chromaAccumulate M W U).1.map (fun v => v * (1 / (chromaAccumulate M W U).2)),
          true⟩ : ChromaOut)
      else ⟨s1, List.replicate 12 0, false⟩).available = true →
      |(if (1e-12 : ℚ) < (chromaAccumulate M W U).2 then
          (⟨s1, (chromaAccumulate M W U).1.map (fun v => v * (1 / (chromaAccumulate M W U).2)),
            true⟩ : ChromaOut)
        else ⟨s1, List.replicate 12 0, false⟩).chroma.sum - 1| ≤ 1e-5) ∧
    ((if (1e-12 : ℚ) < (chromaAccumulate M W U).2 then
        (⟨s1, (chromaAccumulate M W U).1.map (fun v => v * (1 / (chromaAccumulate M W U).2)),
          true⟩ : ChromaOut)
      else ⟨s1, List.replicate 12 0, false⟩).available = false →
      ∀ x ∈ (if (1e-12 : ℚ) < (chromaAccumulate M W U).2 then
          (⟨s1, (chromaAccumulate M W U).1.map (fun v => v * (1 / (chromaAccumulate M W U).2)),
            true⟩ : ChromaOut)
        else ⟨s1, List.replicate 12 0, false⟩).chroma, x = 0) := by
  split_ifs with hf
  · refine ⟨fun _ => ?_, fun hfalse => by contradiction⟩
    dsimp only
    rw [sum_map_mul_const, (chromaAccumulate_inv M W U).1, mul_one_div,
      div_self (ne_of_gt (lt_trans (by norm_num) hf))]
    norm_num
  · exact ⟨fun htrue => by contradiction, fun _ x hx => List.eq_of_mem_replicate hx⟩

theorem chromaStage_spec (ops : RealOps) (cfg : Config) (w : Bool) (s : ExtractorState)
    (sr : ℚ) :
    ((chromaStage ops cfg w s sr).available = true →
      |(chromaStage ops cfg w s sr).chroma.sum - 1| ≤ 1e-5) ∧
    ((chromaStage ops cfg w s sr).available = false →
      ∀ x ∈ (chromaStage ops cfg w s sr).chroma, x = 0) := by
  unfold chromaStage
  by_cases hc : (cfg.enable_chroma && w && !s.weighted_bins.isEmpty) = true
  · rw [if_pos hc]
    exact chroma_branch_spec _ _ _ _
  · rw [if_neg hc]
    exact ⟨fun htrue => by contradiction, fun _ x hx => List.eq_of_mem_replicate hx⟩

/-- Claim C4: whenever a feature bundle reports `chroma_available`, its
12 chroma entries sum to 1 (exactly, in the rational model, hence
within the 1e-5 tolerance); whenever it does not, every entry is
exactly zero. -/
theorem c4_chroma_normalization (ops : RealOps) (cfg : Config) (s : ExtractorState)
    (frame : FeatureInputFrame) :
    ((process ops cfg s frame).1.chroma_available = true →
      |(process ops cfg s frame).1.chroma.sum - 1| ≤ 1e-5) ∧
    ((process ops cfg s frame).1.chroma_available = false →
      ∀ x ∈ (process ops cfg s frame).1.chroma, x = 0) := by
  simp only [process]
  by_cases hz : (resolveStage ops s frame).bands.length = 0
  · rw [if_pos hz]
    exact ⟨fun htrue => Bool.noConfusion htrue,
      fun _ x hx => List.eq_of_mem_replicate hx⟩
  · rw [if_neg hz]
    exact ⟨(chromaStage_spec ops cfg _ _ _).1, (chromaStage_spec ops cfg _ _ _).2⟩

/-- The concrete frame of the C4 witness: the repo weighting test's
two-spike spectrum. -/
def c4Frame : FeatureInputFrame :=
  ⟨[0, 1, 0, 0, 0, 0, 1, 0, 0], [], [], [], [], [(0, 3), (3, 6), (6, 9)], 48000, 4, 0⟩

unseal Rat.add Rat.mul Rat.inv Rat.sub Rat.ofScientific in
/-- Witness for C4: the two-spike frame yields an available chroma
vector summing to one. -/
theorem c4_chroma_normalization_witness :
    (process trivOps defaultConfig initState c4Frame).1.chroma_available = true ∧
    |(process trivOps defaultConfig initState c4Frame).1.chroma.sum - 1| ≤ 1e-5 :=
  ⟨by decide,
   (c4_chroma_normalization trivOps defaultConfig initState c4Frame).1 (by decide)⟩

theorem resolveStage_no_prepare (ops : RealOps) (s : ExtractorState)
    (frame : FeatureInputFrame) (hbc : resolvedBandCount frame = s.band_count) :
    (resolveStage ops s frame).s.tempo_state = s.tempo_state ∧
    (resolveStage ops s frame).s.onset_history = s.onset_history ∧
    (resolveStage ops s frame).s.onset_history_write_pos = s.onset_history_write_pos := by
  unfold resolveStage
  unfold resolvedBandCount at hbc
  by_cases hw : (!frame.fft_magnitudes.isEmpty && !frame.band_bin_ranges.isEmpty &&
      decide (0 < frame.sample_rate)) = true
  · rw [if_pos hw] at hbc
    rw [if_pos hw]
    dsimp only
    rw [if_neg (fun hne => hne hbc.symm)]
    exact ⟨by rw [uwc_tempo_state], by rw [uwc_onset_history], by rw [uwc_write_pos]⟩
  · rw [if_neg hw] at hbc
    rw [if_neg hw]
    dsimp only
    split_ifs at hbc ⊢ with h1 h2 h3
    · exact absurd hbc.symm h2
    · exact ⟨rfl, rfl, rfl⟩
    · exact absurd hbc.symm h3
    · exact ⟨rfl, rfl, rfl⟩

/-- Claim C3 (amended), the tempo-tracker part: a `process` call with
`frame_period ≤ 0` that does not trigger a band-count change reports the
stored bpm and beat phase unchanged, downbeat false, and leaves the
onset history and its write cursor untouched. -/
theorem c3_degenerate_frame_period (ops : RealOps) (cfg : Config) (s : ExtractorState)
    (frame : FeatureInputFrame)
    (hfp : frame.frame_period ≤ 0)
    (hbc : resolvedBandCount frame = s.band_count)
    (hnz : s.band_count ≠ 0) :
    (process ops cfg s frame).1.bpm = s.tempo_state.bpm ∧
    (process ops cfg s frame).1.beat_phase = s.tempo_state.beat_phase ∧
    (process ops cfg s frame).1.downbeat = false ∧
    (process ops cfg s frame).2.onset_history = s.onset_history ∧
    (process ops cfg s frame).2.onset_history_write_pos = s.onset_history_write_pos := by
  have hlen : (resolveStage ops s frame).bands.length = s.band_count := by
    rw [resolveStage_bands_length, hbc]
  simp only [process]
  rw [if_neg (by rw [hlen]; exact hnz)]
  simp only [update_tempo_tracking]
  rw [if_pos hfp]
  dsimp only
  refine ⟨?_, ?_, rfl, ?_, ?_⟩
  · rw [chromaStage_tempo_state]
    dsimp only
    rw [(resolveStage_no_prepare ops s frame hbc).1]
  · rw [chromaStage_tempo_state]
    dsimp only
    rw [(resolveStage_no_prepare ops s frame hbc).1]
  · rw [chromaStage_onset_history]
    dsimp only
    rw [(resolveStage_no_prepare ops s frame hbc).2.1]
  · rw [chromaStage_write_pos]
    dsimp only
    rw [(resolveStage_no_prepare ops s frame hbc).2.2]

/-- First frame of the C3 counterexample run: one instantaneous band,
frame period 4 s (so the onset history is written once). -/
def c3Frame1 : FeatureInputFrame :=
  ⟨[], [], [1], [], [], [], 0, 4, 0⟩

/-- Second frame of the C3 counterexample run: two instantaneous bands
(band-count change) and degenerate frame period 0. -/
def c3Frame2 : FeatureInputFrame :=
  ⟨[], [], [1, 1], [], [], [], 0, 0, 0⟩

/-- The engine state after processing `c3Frame1` from a fresh engine. -/
def c3State1 : ExtractorState :=
  (process trivOps defaultConfig initState c3Frame1).2

set_option maxRecDepth 100000 in
set_option maxHeartbeats 2000000 in
unseal Rat.add Rat.mul Rat.inv Rat.sub Rat.ofScientific in
/-- Counterexample to C3 as stated: a reachable state whose onset
history cursor sits at 1; a `process` call with `frame_period = 0` but a
changed band count resets the cursor to 0, so the claim's "does not
write to or resize the onset-history buffer" fails. -/
theorem c3_counterexample :
    c3Frame2.frame_period ≤ 0 ∧
    c3State1.onset_history_write_pos = 1 ∧
    (process trivOps defaultConfig c3State1 c3Frame2).2.onset_history_write_pos = 0 := by
  refine ⟨le_refl 0, by decide, by decide⟩

set_option maxRecDepth 100000 in
set_option maxHeartbeats 2000000 in
unseal Rat.add Rat.mul Rat.inv Rat.sub Rat.ofScientific in
/-- Witness for the amended C3 at a one-band engine and a degenerate
frame. -/
theorem c3_degenerate_frame_period_witness :
    ((⟨[], [], [2], [], [], [], 0, 0, 0⟩ : FeatureInputFrame).frame_period ≤ 0 ∧
      resolvedBandCount ⟨[], [], [2], [], [], [], 0, 0, 0⟩ = (prepare initState 1).band_count ∧
      (prepare initState 1).band_count ≠ 0) ∧
    (process trivOps defaultConfig (prepare initState 1)
        ⟨[], [], [2], [], [], [], 0, 0, 0⟩).1.bpm = (prepare initState 1).tempo_state.bpm ∧
    (process trivOps defaultConfig (prepare initState 1)
        ⟨[], [], [2], [], [], [], 0, 0, 0⟩).2.onset_history_write_pos =
      (prepare initState 1).onset_history_write_pos :=
  ⟨⟨by norm_num, by decide, by decide⟩,
   (c3_degenerate_frame_period trivOps defaultConfig (prepare initState 1)
     ⟨[], [], [2], [], [], [], 0, 0, 0⟩ (by norm_num) (by decide) (by decide)).1,
   (c3_degenerate_frame_period trivOps defaultConfig (prepare initState 1)
     ⟨[], [], [2], [], [], [], 0, 0, 0⟩ (by norm_num) (by decide) (by decide)).2.2.2.2⟩

theorem advanceBeatCounter_downbeat (bpb : ℕ) (w : ℕ) :
    ∀ c : ℕ, ((advanceBeatCounter c w bpb).2 = true ↔
      ∃ k ∈ Finset.Icc 1 w, (c + k) % bpb = 0) := by
  induction w with
  | zero =>
    intro c
    simp only [advanceBeatCounter]
    constructor
    · intro h
      exact Bool.noConfusion h
    · rintro ⟨k, hk, _⟩
      rw [Finset.mem_Icc] at hk
      omega
  | succ n ih =>
    intro c
    simp only [advanceBeatCounter]
    rw [Bool.or_eq_true, ih ((c + 1) % bpb)]
    constructor
    · rintro (⟨k, hk, hmod⟩ | hz)
      · rw [Finset.mem_Icc] at hk
        refine ⟨k + 1, Finset.mem_Icc.mpr ⟨by omega, by omega⟩, ?_⟩
        rw [show c + (k + 1) = c + 1 + k by omega, ← Nat.mod_add_mod]
        exact hmod
      · exact ⟨1, Finset.mem_Icc.mpr ⟨le_refl 1, by omega⟩, of_decide_eq_true hz⟩
    · rintro ⟨k, hk, hmod⟩
      rw [Finset.mem_Icc] at hk
      by_cases hk1 : k = 1
      · right
        rw [hk1] at hmod
        exact decide_eq_true hmod
      · left
        refine ⟨k - 1, Finset.mem_Icc.mpr ⟨by omega, by omega⟩, ?_⟩
        rw [Nat.mod_add_mod, show c + 1 + (k - 1) = c + k by omega]
        exact hmod

theorem advanceBeatCounter_fst (bpb : ℕ) (w : ℕ) (hb : 0 < bpb) :
    ∀ c : ℕ, c < bpb → (advanceBeatCounter c w bpb).1 = (c + w) % bpb := by
  induction w with
  | zero =>
    intro c hc
    simp [advanceBeatCounter, Nat.mod_eq_of_lt hc]
  | succ n ih =>
    intro c hc
    simp only [advanceBeatCounter]
    rw [ih ((c + 1) % bpb) (Nat.mod_lt _ hb), Nat.mod_add_mod]
    congr 1
    omega

theorem advanceBeatCounter_downbeat_div (bpb c w : ℕ) (hb : 0 < bpb) (hc : c < bpb) :
    ((advanceBeatCounter c w bpb).2 = true ↔ 1 ≤ (c + w) / bpb) := by
  rw [advanceBeatCounter_downbeat]
  constructor
  · rintro ⟨k, hk, hmod⟩
    rw [Finset.mem_Icc] at hk
    have hdvd : bpb ∣ c + k := Nat.dvd_of_mod_eq_zero hmod
    have hle : bpb ≤ c + k := Nat.le_of_dvd (by omega) hdvd
    rw [Nat.one_le_div_iff hb]
    omega
  · intro h
    rw [Nat.one_le_div_iff hb] at h
    refine ⟨bpb - c, Finset.mem_Icc.mpr ⟨by omega, by omega⟩, ?_⟩
    rw [show c + (bpb - c) = bpb by omega, Nat.mod_self]

/-- Driving the in-bar counter over a run: one entry of `ws` per frame,
giving that frame's wrap count; returns the final counter and the
number of frames whose downbeat flag fired. -/
def runCounter (bpb : ℕ) : ℕ → List ℕ → ℕ × ℕ
  | c, [] => (c, 0)
  | c, w :: ws =>
    let r := advanceBeatCounter c w bpb
    let rest := runCounter bpb r.1 ws
    (rest.1, rest.2 + (if r.2 then 1 else 0))

theorem runCounter_count (bpb : ℕ) (hb : 0 < bpb) :
    ∀ (ws : List ℕ) (c : ℕ), c < bpb → (∀ w ∈ ws, w ≤ bpb) →
      (runCounter bpb c ws).2 = (c + ws.sum) / bpb := by
  intro ws
  induction ws with
  | nil =>
    intro c hc _
    simp [runCounter, Nat.div_eq_of_lt hc]
  | cons w ws ih =>
    intro c hc hws
    have hw : w ≤ bpb := hws w (List.mem_cons_self w ws)
    have hrest := ih ((c + w) % bpb) (Nat.mod_lt _ hb)
      (fun x hx => hws x (List.mem_cons_of_mem w hx))
    have hdivle : (c + w) / bpb ≤ 1 := by
      have h2 : (c + w) / bpb < 2 := (Nat.div_lt_iff_lt_mul hb).mpr (by omega)
      exact Nat.lt_succ_iff.mp h2
    have hflag : (if (advanceBeatCounter c w bpb).2 then 1 else 0) = (c + w) / bpb := by
      by_cases hd : (advanceBeatCounter c w bpb).2 = true
      · rw [if_pos hd]
        have h1 := (advanceBeatCounter_downbeat_div bpb c w hb hc).mp hd
        exact le_antisymm h1 hdivle
      · rw [if_neg (fun hcontra => hd hcontra)]
        have h1 : ¬(1 ≤ (c + w) / bpb) :=
          fun hge => hd ((advanceBeatCounter_downbeat_div bpb c w hb hc).mpr hge)
        exact (Nat.lt_one_iff.mp (Nat.not_le.mp h1)).symm
    simp only [runCounter]
    rw [advanceBeatCounter_fst bpb w hb c hc, hrest, hflag, List.sum_cons]
    conv_rhs => rw [show c + (w + ws.sum) = ((c + w) % bpb + ws.sum) + bpb * ((c + w) / bpb) by
      have hmd := Nat.mod_add_div (c + w) bpb
      omega]
    rw [Nat.add_mul_div_left _ _ hb]

theorem resize_onset_history_length_pos (s : ExtractorState) (d0 : ℕ) :
    0 < (resize_onset_history s d0).onset_history.length := by
  unfold resize_onset_history
  dsimp only
  split_ifs <;> simp only [List.length_replicate] at * <;> omega

theorem resize_onset_history_beat_counter (s : ExtractorState) (d0 : ℕ) :
    (resize_onset_history s d0).beat_counter_in_bar = s.beat_counter_in_bar := by
  unfold resize_onset_history
  dsimp only
  split_ifs <;> rfl

theorem tempoResize_ne_nil (cfg : Config) (s : ExtractorState) (fp : ℚ) :
    (tempoResize cfg s fp).onset_history ≠ [] := by
  unfold tempoResize
  dsimp only
  split_ifs
  all_goals
    first
      | exact List.length_pos.mp (resize_onset_history_length_pos _ _)
      | (rename_i h1
         push_neg at h1
         exact h1.1)

theorem tempoWrite_beat_counter (s : ExtractorState) (onset : ℚ) :
    (tempoWrite s onset).beat_counter_in_bar = s.beat_counter_in_bar := rfl

theorem tempoResize_beat_counter (cfg : Config) (s : ExtractorState) (fp : ℚ) :
    (tempoResize cfg s fp).beat_counter_in_bar = s.beat_counter_in_bar := by
  unfold tempoResize
  dsimp only
  split_ifs
  all_goals first | rw [resize_onset_history_beat_counter] | rfl

/-- The claim's wording for a single tempo-tracker step: after the
history update and tempo smoothing of that call, the estimated bpm is
positive and the in-bar beat counter wraps to zero at some increment
within that call's beat-phase advance. -/
def downbeatSpec (cfg : Config) (s : ExtractorState) (onset fp : ℚ) : Prop :=
  let s2 := tempoWrite (tempoResize cfg s fp) onset
  let sc := tempoScan cfg s2 fp
  let ts := tempoSmooth cfg s2.tempo_state sc.1 sc.2
  let pa := ts.beat_phase + ts.bpm / 60 * fp
  let w := if 1 ≤ pa then pa.floor.toNat else 0
  0 < ts.bpm ∧ ∃ k ∈ Finset.Icc 1 w,
    (s.beat_counter_in_bar + k) % (max 1 cfg.beats_per_bar) = 0

/-- Claim C2: the downbeat flag returned by `update_tempo_tracking` is
true exactly when, during that call's beat-phase advance, the in-bar
beat counter wraps to zero (and is always false for a degenerate frame
period); and over any run in which each frame advances at most one full
bar of wraps, the number of downbeat frames is exactly one per
`beats_per_bar` wraps of the counter. -/
theorem c2_downbeat_iff :
    (∀ (cfg : Config) (s : ExtractorState) (onset fp : ℚ) (ob : Bool), fp ≤ 0 →
      (update_tempo_tracking cfg s onset fp ob).2.downbeat = false) ∧
    (∀ (cfg : Config) (s : ExtractorState) (onset fp : ℚ) (ob : Bool), 0 < fp →
      ((update_tempo_tracking cfg s onset fp ob).2.downbeat = true ↔
        downbeatSpec cfg s onset fp)) ∧
    (∀ (bpb : ℕ) (ws : List ℕ), 0 < bpb → (∀ w ∈ ws, w ≤ bpb) →
      (runCounter bpb 0 ws).2 = ws.sum / bpb) := by
  refine ⟨?_, ?_, ?_⟩
  · intro cfg s onset fp ob hfp
    unfold update_tempo_tracking
    rw [if_pos hfp]
  · intro cfg s onset fp ob hfp
    unfold update_tempo_tracking
    rw [if_neg (not_le.mpr hfp), if_neg (tempoResize_ne_nil cfg s fp)]
    dsimp only
    unfold advancePhase downbeatSpec
    dsimp only
    rw [tempoWrite_beat_counter, tempoResize_beat_counter]
    set ts := tempoSmooth cfg (tempoWrite (tempoResize cfg s fp) onset).tempo_state
      (tempoScan cfg (tempoWrite (tempoResize cfg s fp) onset) fp).1
      (tempoScan cfg (tempoWrite (tempoResize cfg s fp) onset) fp).2
    set pa := ts.beat_phase + ts.bpm / 60 * fp
    by_cases hb : 0 < ts.bpm
    · rw [if_pos hb]
      dsimp only
      by_cases hw : 1 ≤ pa
      · rw [if_pos hw, if_pos hw]
        dsimp only
        rw [advanceBeatCounter_downbeat]
        exact ⟨fun h => ⟨hb, h⟩, And.right⟩
      · rw [if_neg hw, if_neg hw]
        dsimp only
        constructor
        · intro h
          first
            | exact h.elim
            | simp at h
        · rintro ⟨_, k, hk, _⟩
          rw [Finset.mem_Icc] at hk
          omega
    · rw [if_neg hb]
      dsimp only
      constructor
      · intro h
        first
          | exact h.elim
          | simp at h
      · rintro ⟨h0, _⟩
        exact absurd h0 hb
  · intro bpb ws hb hws
    rw [runCounter_count bpb hb ws 0 hb hws, Nat.zero_add]

/-- Witness for C2: a degenerate-period call, a positive-period call on
a fresh engine, and an eight-frame run of single wraps in a four-beat
bar firing exactly twice. -/
theorem c2_downbeat_iff_witness :
    ((0 : ℚ) ≤ 0 ∧
      (update_tempo_tracking defaultConfig initState 0 0 false).2.downbeat = false) ∧
    ((0 : ℚ) < 4 ∧
      ((update_tempo_tracking defaultConfig initState 0 4 false).2.downbeat = true ↔
        downbeatSpec defaultConfig initState 0 4)) ∧
    (0 < 4 ∧ (∀ w ∈ ([1, 1, 1, 1, 1, 1, 1, 1] : List ℕ), w ≤ 4) ∧
      (runCounter 4 0 [1, 1, 1, 1, 1, 1, 1, 1]).2 =
        ([1, 1, 1, 1, 1, 1, 1, 1] : List ℕ).sum / 4) :=
  ⟨⟨le_refl 0, c2_downbeat_iff.1 defaultConfig initState 0 0 false (le_refl 0)⟩,
   ⟨by norm_num, c2_downbeat_iff.2.1 defaultConfig initState 0 4 false (by norm_num)⟩,
   ⟨by decide, by decide,
    c2_downbeat_iff.2.2 4 [1, 1, 1, 1, 1, 1, 1, 1] (by decide) (by decide)⟩⟩

/-- The engine-state invariant maintained by `process`: non-negative
tempo estimate, beat phase in `[0,1)`, in-bar counter within the bar,
and non-negative envelope followers. -/
def StateInv (cfg : Config) (s : ExtractorState) : Prop :=
  0 ≤ s.tempo_state.bpm ∧
  0 ≤ s.tempo_state.beat_phase ∧ s.tempo_state.beat_phase < 1 ∧
  s.beat_counter_in_bar < max 1 cfg.beats_per_bar ∧
  (∀ x ∈ s.band_envelopes, 0 ≤ x) ∧
  0 ≤ s.bass_envelope ∧ 0 ≤ s.mid_envelope ∧ 0 ≤ s.treble_envelope ∧ 0 ≤ s.total_envelope

/-- The documented output ranges of `AudioFeatures` (claim C7). -/
def FeatureBounds (f : AudioFeatures) : Prop :=
  0 ≤ f.spectral_centroid ∧ f.spectral_centroid ≤ 1 ∧
  0 ≤ f.spectral_flatness ∧ f.spectral_flatness ≤ 1 ∧
  0 ≤ f.bass_energy ∧ 0 ≤ f.mid_energy ∧ 0 ≤ f.treble_energy ∧ 0 ≤ f.total_energy ∧
  0 ≤ f.bass_envelope ∧ 0 ≤ f.mid_envelope ∧ 0 ≤ f.treble_envelope ∧
  0 ≤ f.bass_energy_instantaneous ∧ 0 ≤ f.mid_energy_instantaneous ∧
  0 ≤ f.treble_energy_instantaneous ∧ 0 ≤ f.total_energy_instantaneous ∧
  0 ≤ f.bpm ∧
  0 ≤ f.beat_phase ∧ f.beat_phase < 1 ∧
  0 ≤ f.bar_phase ∧ f.bar_phase < 1

/-- The spec's configuration invariant: smoothing coefficients lie in
`[0,1]`. -/
def ConfigValid (cfg : Config) : Prop :=
  0 ≤ cfg.smoothing_attack ∧ cfg.smoothing_attack ≤ 1 ∧
  0 ≤ cfg.smoothing_release ∧ cfg.smoothing_release ≤ 1

theorem envelope_step_nonneg (a r e t : ℚ) (he : 0 ≤ e) (ht : 0 ≤ t)
    (ha0 : 0 ≤ a) (ha1 : a ≤ 1) (hr0 : 0 ≤ r) (hr1 : r ≤ 1) :
    0 ≤ e + (t - e) * (if e < t then a else r) := by
  split_ifs <;> nlinarith

theorem resize_onset_history_frame (s : ExtractorState) (d0 : ℕ) :
    (resize_onset_history s d0).tempo_state = s.tempo_state ∧
    (resize_onset_history s d0).band_envelopes = s.band_envelopes ∧
    (resize_onset_history s d0).bass_envelope = s.bass_envelope ∧
    (resize_onset_history s d0).mid_envelope = s.mid_envelope ∧
    (resize_onset_history s d0).treble_envelope = s.treble_envelope ∧
    (resize_onset_history s d0).total_envelope = s.total_envelope := by
  unfold resize_onset_history
  dsimp only
  split_ifs <;> exact ⟨rfl, rfl, rfl, rfl, rfl, rfl⟩

theorem tempoResize_frame (cfg : Config) (s : ExtractorState) (fp : ℚ) :
    (tempoResize cfg s fp).tempo_state = s.tempo_state ∧
    (tempoResize cfg s fp).band_envelopes = s.band_envelopes ∧
    (tempoResize cfg s fp).bass_envelope = s.bass_envelope ∧
    (tempoResize cfg s fp).mid_envelope = s.mid_envelope ∧
    (tempoResize cfg s fp).treble_envelope = s.treble_envelope ∧
    (tempoResize cfg s fp).total_envelope = s.total_envelope := by
  unfold tempoResize
  dsimp only
  split_ifs
  all_goals
    first
      | exact resize_onset_history_frame _ _
      | exact ⟨rfl, rfl, rfl, rfl, rfl, rfl⟩

theorem ucm_band_envelopes (ops : RealOps) (cfg : Config) (s : ExtractorState) (bins : ℕ)
    (sr : ℚ) (fft : ℕ) :
    (update_chroma_mapping ops cfg s bins sr fft).band_envelopes = s.band_envelopes := by
  unfold update_chroma_mapping
  dsimp only
  split_ifs <;> rfl

theorem ucm_scalar_envelopes (ops : RealOps) (cfg : Config) (s : ExtractorState) (bins : ℕ)
    (sr : ℚ) (fft : ℕ) :
    (update_chroma_mapping ops cfg s bins sr fft).bass_envelope = s.bass_envelope ∧
    (update_chroma_mapping ops cfg s bins sr fft).mid_envelope = s.mid_envelope ∧
    (update_chroma_mapping ops cfg s bins sr fft).treble_envelope = s.treble_envelope ∧
    (update_chroma_mapping ops cfg s bins sr fft).total_envelope = s.total_envelope := by
  unfold update_chroma_mapping
  dsimp only
  split_ifs <;> exact ⟨rfl, rfl, rfl, rfl⟩

theorem chromaStage_band_envelopes (ops : RealOps) (cfg : Config) (w : Bool)
    (s : ExtractorState) (sr : ℚ) :
    (chromaStage ops cfg w s sr).s.band_envelopes = s.band_envelopes := by
  unfold chromaStage
  dsimp only
  split_ifs <;> first | rfl | exact ucm_band_envelopes ops cfg s _ sr _

theorem chromaStage_scalar_envelopes (ops : RealOps) (cfg : Config) (w : Bool)
    (s : ExtractorState) (sr : ℚ) :
    (chromaStage ops cfg w s sr).s.bass_envelope = s.bass_envelope ∧
    (chromaStage ops cfg w s sr).s.mid_envelope = s.mid_envelope ∧
    (chromaStage ops cfg w s sr).s.treble_envelope = s.treble_envelope ∧
    (chromaStage ops cfg w s sr).s.total_envelope = s.total_envelope := by
  unfold chromaStage
  dsimp only
  split_ifs <;> first | exact ⟨rfl, rfl, rfl, rfl⟩ | exact ucm_scalar_envelopes ops cfg s _ sr _

theorem reset_StateInv (cfg : Config) (s : ExtractorState) : StateInv cfg (reset s) := by
  unfold reset StateInv
  dsimp only
  refine ⟨?_, ?_, ?_, ?_, ?_, ?_, ?_, ?_, ?_⟩
  all_goals
    first
      | exact le_refl 0
      | norm_num
      | exact lt_of_lt_of_le one_pos (le_max_left 1 cfg.beats_per_bar)
      | skip
  split_ifs with h1
  · rw [(resize_onset_history_frame _ _).2.1]
    dsimp only
    intro x hx
    exact le_of_eq (List.eq_of_mem_replicate hx).symm
  · dsimp only
    intro x hx
    exact le_of_eq (List.eq_of_mem_replicate hx).symm

theorem prepare_StateInv (cfg : Config) (s : ExtractorState) (n : ℕ) :
    StateInv cfg (prepare s n) :=
  reset_StateInv cfg (ensure_band_capacity s n)

theorem resolveStage_StateInv (ops : RealOps) (cfg : Config) (s : ExtractorState)
    (frame : FeatureInputFrame) (h : StateInv cfg s) :
    StateInv cfg (resolveStage ops s frame).s := by
  unfold resolveStage
  by_cases hw : (!frame.fft_magnitudes.isEmpty && !frame.band_bin_ranges.isEmpty &&
      decide (0 < frame.sample_rate)) = true
  · rw [if_pos hw]
    dsimp only
    unfold StateInv
    rw [uwc_tempo_state, uwc_beat_counter, uwc_band_envelopes,
      (uwc_scalar_envelopes ops _ _ _ _).1, (uwc_scalar_envelopes ops _ _ _ _).2.1,
      (uwc_scalar_envelopes ops _ _ _ _).2.2.1, (uwc_scalar_envelopes ops _ _ _ _).2.2.2]
    split_ifs with hp
    · exact prepare_StateInv cfg s _
    · exact h
  · rw [if_neg hw]
    dsimp only
    split_ifs <;> first | exact prepare_StateInv cfg s _ | exact h

theorem tempoSmooth_inv (cfg : Config) (ts : TempoTrackerState) (cand score : ℚ)
    (h : 0 ≤ ts.bpm) :
    0 ≤ (tempoSmooth cfg ts cand score).bpm ∧
    (tempoSmooth cfg ts cand score).beat_phase = ts.beat_phase := by
  unfold tempoSmooth
  dsimp only
  have hsm0 : 0 ≤ clampQ cfg.tempo_smoothing 0 1 := clampQ_lower (by norm_num)
  have hsm1 : clampQ cfg.tempo_smoothing 0 1 ≤ 1 := clampQ_upper (by norm_num)
  split_ifs with h1 h2 h3 h4
  · exact ⟨le_of_lt h1.1, rfl⟩
  · refine ⟨?_, rfl⟩
    have hc := le_of_lt h1.1
    show 0 ≤ ts.bpm + (cand - ts.bpm) * clampQ cfg.tempo_smoothing 0 1
    nlinarith [mul_nonneg hc hsm0, mul_nonneg h (sub_nonneg.mpr hsm1)]
  · exact ⟨le_refl 0, rfl⟩
  · exact ⟨mul_nonneg h (by norm_num), rfl⟩
  · exact ⟨h, rfl⟩

theorem clamp_unit_eq {v : ℚ} (h0 : 0 ≤ v) (h1 : v < 1) : clampQ v 0 1 = v :=
  clampQ_eq_self h0 (le_of_lt h1)

theorem phase2_bounds (ra p : ℚ) (hp0 : 0 ≤ p) (hp1 : p < 1) (ob : Bool) :
    0 ≤ (if ob = true then clampQ (p - p * clampQ ra 0 1) 0 1 else p) ∧
    (if ob = true then clampQ (p - p * clampQ ra 0 1) 0 1 else p) < 1 := by
  split_ifs with hob
  · have hr0 : 0 ≤ clampQ ra 0 1 := clampQ_lower (by norm_num)
    have hr1 : clampQ ra 0 1 ≤ 1 := clampQ_upper (by norm_num)
    have hv0 : 0 ≤ p - p * clampQ ra 0 1 := by nlinarith
    have hv1 : p - p * clampQ ra 0 1 < 1 := by nlinarith
    rw [clamp_unit_eq hv0 hv1]
    exact ⟨hv0, hv1⟩
  · exact ⟨hp0, hp1⟩

theorem bar_bounds (bpb : ℕ) (hbpb : 1 ≤ bpb) (c : ℕ) (hc : c < bpb) (p : ℚ)
    (hp0 : 0 ≤ p) (hp1 : p < 1) :
    0 ≤ clampQ (((c : ℚ) + p) / max (bpb : ℚ) 1) 0 1 ∧
    clampQ (((c : ℚ) + p) / max (bpb : ℚ) 1) 0 1 < 1 := by
  have hbq : (1 : ℚ) ≤ (bpb : ℚ) := by exact_mod_cast hbpb
  rw [max_eq_left hbq]
  have hbpos : (0 : ℚ) < (bpb : ℚ) := lt_of_lt_of_le one_pos hbq
  have hcq : (c : ℚ) + 1 ≤ (bpb : ℚ) := by exact_mod_cast hc
  have hv0 : 0 ≤ ((c : ℚ) + p) / (bpb : ℚ) :=
    div_nonneg (add_nonneg (by positivity) hp0) (le_of_lt hbpos)
  have hv1 : ((c : ℚ) + p) / (bpb : ℚ) < 1 := by
    rw [div_lt_one hbpos]
    linarith
  rw [clamp_unit_eq hv0 hv1]
  exact ⟨hv0, hv1⟩

theorem advancePhase_inv (cfg : Config) (ts : TempoTrackerState) (counter : ℕ)
    (fp : ℚ) (ob : Bool)
    (hbpm : 0 ≤ ts.bpm) (h0 : 0 ≤ ts.beat_phase) (h1 : ts.beat_phase < 1)
    (hc : counter < max 1 cfg.beats_per_bar) (hfp : 0 < fp) :
    (advancePhase cfg ts counter fp ob).1.bpm = ts.bpm ∧
    0 ≤ (advancePhase cfg ts counter fp ob).1.beat_phase ∧
    (advancePhase cfg ts counter fp ob).1.beat_phase < 1 ∧
    0 ≤ (advancePhase cfg ts counter fp ob).1.bar_phase ∧
    (advancePhase cfg ts counter fp ob).1.bar_phase < 1 ∧
    (advancePhase cfg ts counter fp ob).2.1 < max 1 cfg.beats_per_bar := by
  have hbpb1 : 1 ≤ max 1 cfg.beats_per_bar := le_max_left 1 cfg.beats_per_bar
  have hbpb0 : 0 < max 1 cfg.beats_per_bar := hbpb1
  have hpa0 : 0 ≤ ts.beat_phase + ts.bpm / 60 * fp :=
    add_nonneg h0 (mul_nonneg (div_nonneg hbpm (by norm_num)) (le_of_lt hfp))
  unfold advancePhase
  dsimp only
  by_cases hb : 0 < ts.bpm
  · rw [if_pos hb]
    dsimp only
    by_cases hw : 1 ≤ ts.beat_phase + ts.bpm / 60 * fp
    · rw [if_pos hw]
      dsimp only
      have hfr0 : 0 ≤ ts.beat_phase + ts.bpm / 60 * fp -
          (((ts.beat_phase + ts.bpm / 60 * fp).floor : ℤ) : ℚ) :=
        Int.fract_nonneg (ts.beat_phase + ts.bpm / 60 * fp)
      have hfr1 : ts.beat_phase + ts.bpm / 60 * fp -
          (((ts.beat_phase + ts.bpm / 60 * fp).floor : ℤ) : ℚ) < 1 :=
        Int.fract_lt_one (ts.beat_phase + ts.bpm / 60 * fp)
      have hc2 : (advanceBeatCounter counter
          (ts.beat_phase + ts.bpm / 60 * fp).floor.toNat (max 1 cfg.beats_per_bar)).1 <
          max 1 cfg.beats_per_bar := by
        rw [advanceBeatCounter_fst _ _ hbpb0 counter hc]
        exact Nat.mod_lt _ hbpb0
      rw [clamp_unit_eq hfr0 hfr1]
      have hp2 := phase2_bounds cfg.beat_phase_realign _ hfr0 hfr1 ob
      exact ⟨rfl, hp2.1, hp2.2,
        (bar_bounds _ hbpb1 _ hc2 _ hp2.1 hp2.2).1,
        (bar_bounds _ hbpb1 _ hc2 _ hp2.1 hp2.2).2, hc2⟩
    · rw [if_neg hw]
      dsimp only
      have hlt : ts.beat_phase + ts.bpm / 60 * fp < 1 := not_le.mp hw
      rw [clamp_unit_eq hpa0 hlt]
      have hp2 := phase2_bounds cfg.beat_phase_realign _ hpa0 hlt ob
      exact ⟨rfl, hp2.1, hp2.2,
        (bar_bounds _ hbpb1 _ hc _ hp2.1 hp2.2).1,
        (bar_bounds _ hbpb1 _ hc _ hp2.1 hp2.2).2, hc⟩
  · rw [if_neg hb]
    dsimp only
    exact ⟨rfl, le_refl 0, one_pos, le_refl 0, one_pos, hbpb0⟩

theorem bar_bounds0 (bq c p : ℚ) (hbq : 1 ≤ bq) (hc0 : 0 ≤ c) (hc : c + 1 ≤ bq)
    (hp0 : 0 ≤ p) (hp1 : p < 1) :
    0 ≤ clampQ ((c + p) / bq) 0 1 ∧ clampQ ((c + p) / bq) 0 1 < 1 := by
  have hbpos : (0 : ℚ) < bq := lt_of_lt_of_le one_pos hbq
  have hv0 : 0 ≤ (c + p) / bq := div_nonneg (add_nonneg hc0 hp0) (le_of_lt hbpos)
  have hv1 : (c + p) / bq < 1 := by
    rw [div_lt_one hbpos]
    linarith
  rw [clamp_unit_eq hv0 hv1]
  exact ⟨hv0, hv1⟩

theorem tempoWrite_frame (s : ExtractorState) (onset : ℚ) :
    (tempoWrite s onset).tempo_state = s.tempo_state ∧
    (tempoWrite s onset).band_envelopes = s.band_envelopes ∧
    (tempoWrite s onset).bass_envelope = s.bass_envelope ∧
    (tempoWrite s onset).mid_envelope = s.mid_envelope ∧
    (tempoWrite s onset).treble_envelope = s.treble_envelope ∧
    (tempoWrite s onset).total_envelope = s.total_envelope :=
  ⟨rfl, rfl, rfl, rfl, rfl, rfl⟩

theorem update_tempo_tracking_inv (cfg : Config) (s : ExtractorState) (onset fp : ℚ)
    (ob : Bool) (h : StateInv cfg s) :
    StateInv cfg (update_tempo_tracking cfg s onset fp ob).1 ∧
    0 ≤ (update_tempo_tracking cfg s onset fp ob).2.bpm ∧
    0 ≤ (update_tempo_tracking cfg s onset fp ob).2.beat_phase ∧
    (update_tempo_tracking cfg s onset fp ob).2.beat_phase < 1 ∧
    0 ≤ (update_tempo_tracking cfg s onset fp ob).2.bar_phase ∧
    (update_tempo_tracking cfg s onset fp ob).2.bar_phase < 1 := by
  obtain ⟨hbpm, hp0, hp1, hcnt, henv, hben, hmen, hten, htoen⟩ := h
  unfold update_tempo_tracking
  dsimp only
  by_cases hfp : fp ≤ 0
  · rw [if_pos hfp]
    dsimp only
    have hbq : (1 : ℚ) ≤ ((max 1 cfg.beats_per_bar : ℕ) : ℚ) := by
      exact_mod_cast le_max_left 1 cfg.beats_per_bar
    have hcq : ((s.beat_counter_in_bar : ℕ) : ℚ) + 1 ≤ ((max 1 cfg.beats_per_bar : ℕ) : ℚ) := by
      exact_mod_cast Nat.succ_le_of_lt hcnt
    have hbar := bar_bounds0 _ _ _ hbq (Nat.cast_nonneg _) hcq hp0 hp1
    exact ⟨⟨hbpm, hp0, hp1, hcnt, henv, hben, hmen, hten, htoen⟩,
      hbpm, hp0, hp1, hbar.1, hbar.2⟩
  · rw [if_neg hfp]
    have hfp2 : 0 < fp := lt_of_not_le hfp
    rw [if_neg (tempoResize_ne_nil cfg s fp)]
    have hts2 : (tempoWrite (tempoResize cfg s fp) onset).tempo_state = s.tempo_state := by
      rw [(tempoWrite_frame _ _).1, (tempoResize_frame cfg s fp).1]
    have hcnt2 : (tempoWrite (tempoResize cfg s fp) onset).beat_counter_in_bar
        = s.beat_counter_in_bar := by
      rw [tempoWrite_beat_counter, tempoResize_beat_counter]
    have henv2 : (tempoWrite (tempoResize cfg s fp) onset).band_envelopes
        = s.band_envelopes := by
      rw [(tempoWrite_frame _ _).2.1, (tempoResize_frame cfg s fp).2.1]
    have hben2 : (tempoWrite (tempoResize cfg s fp) onset).bass_envelope
        = s.bass_envelope := by
      rw [(tempoWrite_frame _ _).2.2.1, (tempoResize_frame cfg s fp).2.2.1]
    have hmen2 : (tempoWrite (tempoResize cfg s fp) onset).mid_envelope
        = s.mid_envelope := by
      rw [(tempoWrite_frame _ _).2.2.2.1, (tempoResize_frame cfg s fp).2.2.2.1]
    have hten2 : (tempoWrite (tempoResize cfg s fp) onset).treble_envelope
        = s.treble_envelope := by
      rw [(tempoWrite_frame _ _).2.2.2.2.1, (tempoResize_frame cfg s fp).2.2.2.2.1]
    have htoen2 : (tempoWrite (tempoResize cfg s fp) onset).total_envelope
        = s.total_envelope := by
      rw [(tempoWrite_frame _ _).2.2.2.2.2, (tempoResize_frame cfg s fp).2.2.2.2.2]
    set s2 := tempoWrite (tempoResize cfg s fp) onset with hs2
    set sc := tempoScan cfg s2 fp with hsc
    have hsm := tempoSmooth_inv cfg s2.tempo_state sc.1 sc.2 (by rw [hts2]; exact hbpm)
    set ts0 := tempoSmooth cfg s2.tempo_state sc.1 sc.2 with hts0
    have hph : ts0.beat_phase = s.tempo_state.beat_phase := by rw [hsm.2, hts2]
    have hap := advancePhase_inv cfg ts0 s2.beat_counter_in_bar fp ob hsm.1
      (by rw [hph]; exact hp0) (by rw [hph]; exact hp1)
      (by rw [hcnt2]; exact hcnt) hfp2
    set a := advancePhase cfg ts0 s2.beat_counter_in_bar fp ob with ha
    have habpm : 0 ≤ a.1.bpm := by
      rw [hap.1]
      exact hsm.1
    refine ⟨⟨habpm, hap.2.1, hap.2.2.1, hap.2.2.2.2.2, ?_, ?_, ?_, ?_, ?_⟩,
      habpm, hap.2.1, hap.2.2.1, hap.2.2.2.1, hap.2.2.2.2.1⟩
    · show ∀ x ∈ s2.band_envelopes, 0 ≤ x
      rw [henv2]
      exact henv
    · show 0 ≤ s2.bass_envelope
      rw [hben2]
      exact hben
    · show 0 ≤ s2.mid_envelope
      rw [hmen2]
      exact hmen
    · show 0 ≤ s2.treble_envelope
      rw [hten2]
      exact hten
    · show 0 ≤ s2.total_envelope
      rw [htoen2]
      exact htoen

theorem sum_max0_nonneg (l : List ℚ) : 0 ≤ (l.map (fun b => max b 0)).sum := by
  apply List.sum_nonneg
  intro x hx
  obtain ⟨b, hb, rfl⟩ := List.mem_map.1 hx
  exact le_max_right b 0

theorem process_bounds (ops : RealOps) (cfg : Config) (s : ExtractorState)
    (frame : FeatureInputFrame) (hcv : ConfigValid cfg) (h : StateInv cfg s) :
    FeatureBounds (process ops cfg s frame).1 ∧ StateInv cfg (process ops cfg s frame).2 := by
  obtain ⟨ha0, ha1, hr0, hr1⟩ := hcv
  have hrs := resolveStage_StateInv ops cfg s frame h
  obtain ⟨rbpm, rp0, rp1, rcnt, renv, rben, rmen, rten, rtoen⟩ := hrs
  unfold process
  dsimp only
  by_cases hbc : (resolveStage ops s frame).bands.length = 0
  · rw [if_pos hbc]
    dsimp only
    constructor
    · unfold FeatureBounds
      dsimp only [emptyFeatures]
      norm_num
    · exact ⟨rbpm, rp0, rp1, rcnt, renv, rben, rmen, rten, rtoen⟩
  · rw [if_neg hbc]
    dsimp only
    set r := resolveStage ops s frame with hrdef
    set bands := r.bands with hbandsdef
    set bc := bands.length with hbcdef
    set E := (List.range bc).map (fun (i : ℕ) =>
        r.s.band_envelopes.getD i 0 +
          (max (bands.getD i 0) 0 - r.s.band_envelopes.getD i 0) *
          (if r.s.band_envelopes.getD i 0 < max (bands.getD i 0) 0 then cfg.smoothing_attack
           else cfg.smoothing_release)) with hEdef
    set bassI := resolve_band_indices bc cfg.bass_range with hbassI
    set midI := resolve_band_indices bc cfg.mid_range with hmidI
    set trebleI := resolve_band_indices bc cfg.treble_range with htrebleI
    set bassInst := compute_average_energy bands bassI.1 bassI.2 with hbassInst
    set midInst := compute_average_energy bands midI.1 midI.2 with hmidInst
    set trebleInst := compute_average_energy bands trebleI.1 trebleI.2 with htrebleInst
    set bassEnv := apply_envelope cfg bassInst r.s.bass_envelope with hbassEnv
    set midEnv := apply_envelope cfg midInst r.s.mid_envelope with hmidEnv
    set trebleEnv := apply_envelope cfg trebleInst r.s.treble_envelope with htrebleEnv
    set totalInst := (bands.map (fun b => max b 0)).sum / (bc : ℚ) with htotalInst
    set totalEnv := apply_envelope cfg totalInst r.s.total_envelope with htotalEnv
    set s2 : ExtractorState := { r.s with
        band_envelopes := E,
        bass_envelope := bassEnv,
        mid_envelope := midEnv,
        treble_envelope := trebleEnv,
        total_envelope := totalEnv } with hs2def
    set C := chromaStage ops cfg r.can_w s2 frame.sample_rate with hCdef
    set O := onsetStage cfg C.s.band_count C.s.band_flux_baseline frame.band_flux
        bassI midI trebleI with hOdef
    set s4 := ({ C.s with band_flux_baseline := O.baseline } : ExtractorState) with hs4def
    set BD := (decide (cfg.beat_detection_threshold ≤ frame.beat_strength) || O.aggregated ||
        O.bass || O.mid || O.treble) with hBD
    have hs2inv : StateInv cfg s2 := by
      rw [hs2def]
      refine ⟨rbpm, rp0, rp1, rcnt, ?_, ?_, ?_, ?_, ?_⟩
      · show ∀ x ∈ E, 0 ≤ x
        rw [hEdef]
        intro x hx
        obtain ⟨i, hi, rfl⟩ := List.mem_map.1 hx
        exact envelope_step_nonneg _ _ _ _ (getD_nonneg renv i) (le_max_right _ 0)
          ha0 ha1 hr0 hr1
      · show 0 ≤ bassEnv
        rw [hbassEnv]
        exact apply_envelope_nonneg cfg _ _ rben ha0 ha1 hr0 hr1
      · show 0 ≤ midEnv
        rw [hmidEnv]
        exact apply_envelope_nonneg cfg _ _ rmen ha0 ha1 hr0 hr1
      · show 0 ≤ trebleEnv
        rw [htrebleEnv]
        exact apply_envelope_nonneg cfg _ _ rten ha0 ha1 hr0 hr1
      · show 0 ≤ totalEnv
        rw [htotalEnv]
        exact apply_envelope_nonneg cfg _ _ rtoen ha0 ha1 hr0 hr1
    have hs4inv : StateInv cfg s4 := by
      obtain ⟨q1, q2, q3, q4, q5, q6, q7, q8, q9⟩ := hs2inv
      rw [hs4def]
      refine ⟨?_, ?_, ?_, ?_, ?_, ?_, ?_, ?_, ?_⟩
      · show 0 ≤ C.s.tempo_state.bpm
        rw [hCdef, chromaStage_tempo_state]
        exact q1
      · show 0 ≤ C.s.tempo_state.beat_phase
        rw [hCdef, chromaStage_tempo_state]
        exact q2
      · show C.s.tempo_state.beat_phase < 1
        rw [hCdef, chromaStage_tempo_state]
        exact q3
      · show C.s.beat_counter_in_bar < max 1 cfg.beats_per_bar
        rw [hCdef, chromaStage_beat_counter]
        exact q4
      · show ∀ x ∈ C.s.band_envelopes, 0 ≤ x
        rw [hCdef, chromaStage_band_envelopes]
        exact q5
      · show 0 ≤ C.s.bass_envelope
        rw [hCdef, (chromaStage_scalar_envelopes ops cfg r.can_w s2 frame.sample_rate).1]
        exact q6
      · show 0 ≤ C.s.mid_envelope
        rw [hCdef, (chromaStage_scalar_envelopes ops cfg r.can_w s2 frame.sample_rate).2.1]
        exact q7
      · show 0 ≤ C.s.treble_envelope
        rw [hCdef, (chromaStage_scalar_envelopes ops cfg r.can_w s2 frame.sample_rate).2.2.1]
        exact q8
      · show 0 ≤ C.s.total_envelope
        rw [hCdef, (chromaStage_scalar_envelopes ops cfg r.can_w s2 frame.sample_rate).2.2.2]
        exact q9
    have hT := update_tempo_tracking_inv cfg s4 O.strength frame.frame_period BD hs4inv
    refine ⟨?_, hT.1⟩
    unfold FeatureBounds
    dsimp only
    refine ⟨?_, ?_, ?_, ?_, ?_, ?_, ?_, ?_, ?_, ?_, ?_, ?_, ?_, ?_, ?_,
      hT.2.1, hT.2.2.1, hT.2.2.2.1, hT.2.2.2.2.1, hT.2.2.2.2.2⟩
    · split_ifs with hsil
      · exact (compute_spectral_centroid_mem_unit _ _).1
      · exact le_refl 0
    · split_ifs with hsil
      · exact (compute_spectral_centroid_mem_unit _ _).2
      · exact zero_le_one
    · exact (spectralFlatness_mem_unit ops cfg r.can_w _ _).1
    · exact (spectralFlatness_mem_unit ops cfg r.can_w _ _).2
    · rw [hbassEnv]
      exact apply_envelope_nonneg cfg _ _ rben ha0 ha1 hr0 hr1
    · rw [hmidEnv]
      exact apply_envelope_nonneg cfg _ _ rmen ha0 ha1 hr0 hr1
    · rw [htrebleEnv]
      exact apply_envelope_nonneg cfg _ _ rten ha0 ha1 hr0 hr1
    · rw [htotalEnv]
      exact apply_envelope_nonneg cfg _ _ rtoen ha0 ha1 hr0 hr1
    · rw [hbassEnv]
      exact apply_envelope_nonneg cfg _ _ rben ha0 ha1 hr0 hr1
    · rw [hmidEnv]
      exact apply_envelope_nonneg cfg _ _ rmen ha0 ha1 hr0 hr1
    · rw [htrebleEnv]
      exact apply_envelope_nonneg cfg _ _ rten ha0 ha1 hr0 hr1
    · rw [hbassInst]
      exact compute_average_energy_nonneg _ _ _
    · rw [hmidInst]
      exact compute_average_energy_nonneg _ _ _
    · rw [htrebleInst]
      exact compute_average_energy_nonneg _ _ _
    · rw [htotalInst]
      exact div_nonneg (sum_max0_nonneg bands) (Nat.cast_nonneg bc)

/-- Claim C7: under the documented configuration (smoothing
coefficients in `[0,1]`), the fresh engine satisfies the state
invariant, `process` preserves it from any state satisfying it (so it
holds in every reachable state), and every returned `AudioFeatures`
has `spectral_centroid` and `spectral_flatness` in `[0,1]`, all energy
and envelope fields non-negative, `bpm ≥ 0`, and `beat_phase` and
`bar_phase` in the half-open interval `[0,1)`. -/
theorem c7_output_ranges :
    (∀ cfg : Config, StateInv cfg initState) ∧
    ∀ (ops : RealOps) (cfg : Config) (s : ExtractorState) (frame : FeatureInputFrame),
      ConfigValid cfg → StateInv cfg s →
      FeatureBounds (process ops cfg s frame).1 ∧
      StateInv cfg (process ops cfg s frame).2 :=
  ⟨fun cfg => reset_StateInv cfg _,
   fun ops cfg s frame hcv h => process_bounds ops cfg s frame hcv h⟩

/-- Witness for C7: the header's default configuration is valid, the
fresh engine satisfies the invariant, and a concrete `process` call on
the fresh engine returns in-range features and an invariant state. -/
theorem c7_output_ranges_witness :
    ConfigValid defaultConfig ∧ StateInv defaultConfig initState ∧
    (FeatureBounds (process trivOps defaultConfig initState c9Frame).1 ∧
      StateInv defaultConfig (process trivOps defaultConfig initState c9Frame).2) :=
  ⟨by norm_num [ConfigValid, defaultConfig],
   c7_output_ranges.1 defaultConfig,
   c7_output_ranges.2 trivOps defaultConfig initState c9Frame
     (by norm_num [ConfigValid, defaultConfig])
     (c7_output_ranges.1 defaultConfig)⟩

end when